import Mathlib

/-!
Verification of the GeoDraw construction engine.

The development shallowly embeds the TypeScript sources:
* `src/core/geometry/types.ts` — the typed data model,
* `src/store/useGeometryStore.ts` — the element store and its
  module-level undo/redo history (`history`, `historyIndex`),
* `src/core/geometry/intersections.ts` — the pure intersection algorithms,
* `src/components/AppCanvas.tsx` — the snap resolver (`findSnapTarget`),
* `src/components/PerpendicularBisectorTool.tsx` — the two-click
  perpendicular-bisector tool.

JavaScript numbers are modelled as real numbers; the code's explicit
epsilon guards (`1e-10` etc.) are kept verbatim.  `Map<string, Point>` is
modelled as an association list queried with `List.lookup`, and
`Map.set` as consing (which shadows earlier bindings exactly as `set`
overwrites).  `Math.hypot`/`Math.sqrt` become `Real.sqrt`.
-/

namespace GeoDraw

/-- `interface Vec2 { x, y }` from `types.ts`. -/
structure Vec2 where
  x : ℝ
  y : ℝ

/-- `interface Point` from `types.ts`. -/
structure Point where
  id : String
  x : ℝ
  y : ℝ
  isFixed : Bool
  optLabel : Option String

/-- `interface Line` from `types.ts`. -/
structure Line where
  id : String
  p1Id : String
  p2Id : String
  infinite : Bool

/-- `interface Circle` from `types.ts`. -/
structure Circle where
  id : String
  centerId : String
  radiusPointId : String

/-- `interface PerpendicularBisector` from `types.ts`. -/
structure PerpendicularBisector where
  id : String
  p1Id : String
  p2Id : String

/-- `interface PerpendicularLine` from `types.ts`. -/
structure PerpendicularLine where
  id : String
  pointId : String
  referenceLineId : String

/-- `type GeoElement = Point | Line | Circle | PerpendicularBisector |
PerpendicularLine` — the closed discriminated union; each constructor
corresponds to one `type` tag. -/
inductive GeoElement where
  | point (p : Point)
  | line (l : Line)
  | circle (c : Circle)
  | pbis (b : PerpendicularBisector)
  | pline (pl : PerpendicularLine)

/-- The shared `id` field of every variant. -/
def GeoElement.id : GeoElement → String
  | .point p => p.id
  | .line l => l.id
  | .circle c => c.id
  | .pbis b => b.id
  | .pline pl => pl.id

/-- `interface IntersectionPoint { x, y }` from `intersections.ts`. -/
structure IntersectionPoint where
  x : ℝ
  y : ℝ

/-- `Map<string, Point>` modelled as an association list. -/
abbrev PMap := List (String × Point)

/-- The staging payload stored by `startConstruction` in the
perpendicular-bisector tool: `{ p1Id, p1 }`. -/
inductive TempData where
  | pb (p1Id : String) (p1 : Point)

/-- The zustand store of `useGeometryStore.ts` together with the
module-level mutable variables `history` and `historyIndex` that the
store's actions read and write.  Fields not involved in any claim
(selection, hover, mouse position) are omitted. -/
structure StoreState where
  elements : List GeoElement
  history : List (List GeoElement)
  historyIndex : Nat
  canUndo : Bool
  canRedo : Bool
  isDrawing : Bool
  tempData : Option TempData

/-- The initial store: `elements: []`, `history = [[]]`, `historyIndex = 0`,
`canUndo: false`, `canRedo: false`, `isDrawing: false`, `tempData: null`. -/
def initState : StoreState :=
  ⟨[], [[]], 0, false, false, false, none⟩

/-- `pushToHistory(elements)` from `useGeometryStore.ts`:
`history = history.slice(0, historyIndex + 1)`, push a copy of the new
element list, `historyIndex++`, and if the stack length now exceeds 50,
`history.shift()` and `historyIndex--`.  Returns the new
`(history, historyIndex)` pair. -/
def pushHist (history : List (List GeoElement)) (historyIndex : Nat)
    (elements : List GeoElement) : List (List GeoElement) × Nat :=
  let h := history.take (historyIndex + 1) ++ [elements]
  let i := historyIndex + 1
  if h.length > 50 then (h.drop 1, i - 1) else (h, i)

/-- The `canUndo`/`canRedo` recomputation `set({ canUndo: historyIndex > 0,
canRedo: historyIndex < history.length - 1 })` performed after every
mutation. -/
def withFlags (s : StoreState) : StoreState :=
  { s with canUndo := decide (0 < s.historyIndex),
           canRedo := decide (s.historyIndex < s.history.length - 1) }

/-- `addElement` action: append one element, push one snapshot, refresh
the flags. -/
def StoreState.addElement (s : StoreState) (e : GeoElement) : StoreState :=
  let newElements := s.elements ++ [e]
  let hi := pushHist s.history s.historyIndex newElements
  withFlags { s with elements := newElements, history := hi.1, historyIndex := hi.2 }

/-- `addElements` action (the spec's `addElementsBatch`): append the whole
batch, push a single snapshot, refresh the flags. -/
def StoreState.addElements (s : StoreState) (es : List GeoElement) : StoreState :=
  let newElements := s.elements ++ es
  let hi := pushHist s.history s.historyIndex newElements
  withFlags { s with elements := newElements, history := hi.1, historyIndex := hi.2 }

/-- `Partial<GeoElement>` as passed to `updateElement`.  Each field is
`none` when absent from the update object.  (No caller ever places the
`id` or `type` discriminant in an update object, so those are not
modelled as overridable.) -/
structure GeoUpdate where
  x : Option ℝ
  y : Option ℝ
  isFixed : Option Bool
  optLabel : Option (Option String)
  p1Id : Option String
  p2Id : Option String
  infinite : Option Bool
  centerId : Option String
  radiusPointId : Option String

/-- An update object with every field absent. -/
def GeoUpdate.empty : GeoUpdate := ⟨none, none, none, none, none, none, none, none, none⟩

/-- `{ ...el, ...updates }` for a `point`-narrowed element. -/
def mergePoint (p : Point) (u : GeoUpdate) : Point :=
  { p with x := u.x.getD p.x, y := u.y.getD p.y,
           isFixed := u.isFixed.getD p.isFixed,
           optLabel := u.optLabel.getD p.optLabel }

/-- `{ ...el, ...updates }` for a `line`-narrowed element. -/
def mergeLine (l : Line) (u : GeoUpdate) : Line :=
  { l with p1Id := u.p1Id.getD l.p1Id, p2Id := u.p2Id.getD l.p2Id,
           infinite := u.infinite.getD l.infinite }

/-- `{ ...el, ...updates }` for a `circle`-narrowed element. -/
def mergeCircle (c : Circle) (u : GeoUpdate) : Circle :=
  { c with centerId := u.centerId.getD c.centerId,
           radiusPointId := u.radiusPointId.getD c.radiusPointId }

/-- `updateElement(id, updates)`: map over the collection; an element
with a different id is returned unchanged; a matching `point`, `line` or
`circle` is spread-merged; a matching element of any other tag falls
through to `return el`.  One snapshot is pushed regardless. -/
def StoreState.updateElement (s : StoreState) (id : String) (u : GeoUpdate) : StoreState :=
  let newElements := s.elements.map (fun el =>
    if el.id ≠ id then el
    else match el with
      | .point p => .point (mergePoint p u)
      | .line l => .line (mergeLine l u)
      | .circle c => .circle (mergeCircle c u)
      | other => other)
  let hi := pushHist s.history s.historyIndex newElements
  withFlags { s with elements := newElements, history := hi.1, historyIndex := hi.2 }

/-- `removeElement(id)`: filter the collection, push one snapshot. -/
def StoreState.removeElement (s : StoreState) (id : String) : StoreState :=
  let newElements := s.elements.filter (fun el => el.id ≠ id)
  let hi := pushHist s.history s.historyIndex newElements
  withFlags { s with elements := newElements, history := hi.1, historyIndex := hi.2 }

/-- `undo()`: no-op when `historyIndex == 0`, otherwise decrement the
index and restore `history[historyIndex]`. -/
def StoreState.undo (s : StoreState) : StoreState :=
  if 0 < s.historyIndex then
    let i := s.historyIndex - 1
    withFlags { s with historyIndex := i, elements := s.history[i]?.getD [] }
  else s

/-- `redo()`: no-op when the index is at the top, otherwise increment it
and restore `history[historyIndex]`. -/
def StoreState.redo (s : StoreState) : StoreState :=
  if s.historyIndex < s.history.length - 1 then
    let i := s.historyIndex + 1
    withFlags { s with historyIndex := i, elements := s.history[i]?.getD [] }
  else s

/-- `startConstruction(data)`: `set({ isDrawing: true, tempData: data })`. -/
def StoreState.startConstruction (s : StoreState) (d : TempData) : StoreState :=
  { s with isDrawing := true, tempData := some d }

/-- `completeConstruction()`: `set({ isDrawing: false, tempData: null })`. -/
def StoreState.completeConstruction (s : StoreState) : StoreState :=
  { s with isDrawing := false, tempData := none }

/-- The store invariant that actually holds in operation: the live
element list is the snapshot the history pointer designates, and the
stack respects the 50-entry cap. -/
def Consistent (s : StoreState) : Prop :=
  s.history[s.historyIndex]? = some s.elements ∧ s.history.length ≤ 50

/-- Whether an element carries the `perpendicular_line` tag. -/
def isPLine : GeoElement → Bool
  | .pline _ => true
  | _ => false

/-- The history produced by committing the elements of `es` one at a
time starting from the empty collection: one snapshot per prefix. -/
def histPrefixes (es : List GeoElement) : List (List GeoElement) :=
  (List.range (es.length + 1)).map (fun k => es.take k)

/-- K sequential single-element commits from the initial store. -/
def commitSeq (es : List GeoElement) : StoreState :=
  es.foldl StoreState.addElement initState

/-- `n` consecutive `undo()` calls. -/
def undoN (n : Nat) (s : StoreState) : StoreState :=
  StoreState.undo^[n] s

/-! ## Derivation engine (`utils.ts`, `intersections.ts`) -/

/-- `Math.hypot(a, b)`. -/
noncomputable def hypotR (a b : ℝ) : ℝ := Real.sqrt (a * a + b * b)

/-- `distance(a, b) = Math.hypot(a.x - b.x, a.y - b.y)` from `utils.ts`. -/
noncomputable def distance (a b : Point) : ℝ := hypotR (a.x - b.x) (a.y - b.y)

/-- `lineLineIntersection`: the determinant `denom = d1x * d2y - d1y * d2x`
of the two direction vectors. -/
def llDenom (p1 p2 p3 p4 : Point) : ℝ :=
  (p2.x - p1.x) * (p4.y - p3.y) - (p2.y - p1.y) * (p4.x - p3.x)

/-- `lineLineIntersection`: the parameter `t = (dx * d2y - dy * d2x) / denom`
with `(dx, dy) = p3 - p1`. -/
noncomputable def llT (p1 p2 p3 p4 : Point) : ℝ :=
  ((p3.x - p1.x) * (p4.y - p3.y) - (p3.y - p1.y) * (p4.x - p3.x)) / llDenom p1 p2 p3 p4

/-- `lineLineIntersection(l1, l2, points)` from `intersections.ts`. -/
noncomputable def lineLineIntersection (l1 l2 : Line) (points : PMap) :
    List IntersectionPoint :=
  match List.lookup l1.p1Id points, List.lookup l1.p2Id points,
        List.lookup l2.p1Id points, List.lookup l2.p2Id points with
  | some p1, some p2, some p3, some p4 =>
    if |llDenom p1 p2 p3 p4| < 1e-10 then []
    else [⟨p1.x + llT p1 p2 p3 p4 * (p2.x - p1.x),
           p1.y + llT p1 p2 p3 p4 * (p2.y - p1.y)⟩]
  | _, _, _, _ => []

/-- `lineCircleIntersection`: `len = Math.sqrt(dx * dx + dy * dy)`, the
length of the defining segment of the line. -/
noncomputable def lcLen (p1 p2 : Point) : ℝ :=
  Real.sqrt ((p2.x - p1.x) * (p2.x - p1.x) + (p2.y - p1.y) * (p2.y - p1.y))

/-- `lineCircleIntersection`: the unit direction `ux = dx / len`. -/
noncomputable def lcUx (p1 p2 : Point) : ℝ := (p2.x - p1.x) / lcLen p1 p2

/-- `lineCircleIntersection`: the unit direction `uy = dy / len`. -/
noncomputable def lcUy (p1 p2 : Point) : ℝ := (p2.y - p1.y) / lcLen p1 p2

/-- `lineCircleIntersection`: `proj = fx * ux + fy * uy`, the scalar
projection of the center onto the line. -/
noncomputable def lcProj (p1 p2 center : Point) : ℝ :=
  (center.x - p1.x) * lcUx p1 p2 + (center.y - p1.y) * lcUy p1 p2

/-- `lineCircleIntersection`: `closestX = p1.x + proj * ux`. -/
noncomputable def lcClosestX (p1 p2 center : Point) : ℝ :=
  p1.x + lcProj p1 p2 center * lcUx p1 p2

/-- `lineCircleIntersection`: `closestY = p1.y + proj * uy`. -/
noncomputable def lcClosestY (p1 p2 center : Point) : ℝ :=
  p1.y + lcProj p1 p2 center * lcUy p1 p2

/-- `lineCircleIntersection`: `distToLine`, the distance from the center
to its projection onto the line. -/
noncomputable def lcDistToLine (p1 p2 center : Point) : ℝ :=
  Real.sqrt ((center.x - lcClosestX p1 p2 center) ^ 2 +
             (center.y - lcClosestY p1 p2 center) ^ 2)

/-- `lineCircleIntersection`:
`halfChord = Math.sqrt(radius * radius - distToLine * distToLine)`. -/
noncomputable def lcHalfChord (p1 p2 center radiusPoint : Point) : ℝ :=
  Real.sqrt (distance center radiusPoint * distance center radiusPoint -
             lcDistToLine p1 p2 center * lcDistToLine p1 p2 center)

/-- `lineCircleIntersection(line, circle, points)` from `intersections.ts`. -/
noncomputable def lineCircleIntersection (line : Line) (circle : Circle)
    (points : PMap) : List IntersectionPoint :=
  match List.lookup line.p1Id points, List.lookup line.p2Id points,
        List.lookup circle.centerId points, List.lookup circle.radiusPointId points with
  | some p1, some p2, some center, some radiusPoint =>
    if lcLen p1 p2 < 1e-10 then []
    else if lcDistToLine p1 p2 center > distance center radiusPoint then []
    else if lcHalfChord p1 p2 center radiusPoint > 1e-10 then
      [⟨lcClosestX p1 p2 center - lcHalfChord p1 p2 center radiusPoint * lcUx p1 p2,
        lcClosestY p1 p2 center - lcHalfChord p1 p2 center radiusPoint * lcUy p1 p2⟩,
       ⟨lcClosestX p1 p2 center + lcHalfChord p1 p2 center radiusPoint * lcUx p1 p2,
        lcClosestY p1 p2 center + lcHalfChord p1 p2 center radiusPoint * lcUy p1 p2⟩]
    else [⟨lcClosestX p1 p2 center, lcClosestY p1 p2 center⟩]
  | _, _, _, _ => []

/-- `circleCircleIntersection`:
`a = (r1 * r1 - r2 * r2 + d * d) / (2 * d)`. -/
noncomputable def ccA (center1 r1p center2 r2p : Point) : ℝ :=
  (distance center1 r1p * distance center1 r1p -
   distance center2 r2p * distance center2 r2p +
   distance center1 center2 * distance center1 center2) /
  (2 * distance center1 center2)

/-- `circleCircleIntersection`: `h = Math.sqrt(r1 * r1 - a * a)`. -/
noncomputable def ccH (center1 r1p center2 r2p : Point) : ℝ :=
  Real.sqrt (distance center1 r1p * distance center1 r1p -
             ccA center1 r1p center2 r2p * ccA center1 r1p center2 r2p)

/-- `circleCircleIntersection`: `px`, the foot of the radical line on the
segment between the centers. -/
noncomputable def ccPx (center1 r1p center2 r2p : Point) : ℝ :=
  center1.x + ccA center1 r1p center2 r2p * (center2.x - center1.x) /
    distance center1 center2

/-- `circleCircleIntersection`: `py`. -/
noncomputable def ccPy (center1 r1p center2 r2p : Point) : ℝ :=
  center1.y + ccA center1 r1p center2 r2p * (center2.y - center1.y) /
    distance center1 center2

/-- `circleCircleIntersection`: `offsetX = h * (center2.y - center1.y) / d`. -/
noncomputable def ccOffX (center1 r1p center2 r2p : Point) : ℝ :=
  ccH center1 r1p center2 r2p * (center2.y - center1.y) / distance center1 center2

/-- `circleCircleIntersection`: `offsetY = h * (center2.x - center1.x) / d`. -/
noncomputable def ccOffY (center1 r1p center2 r2p : Point) : ℝ :=
  ccH center1 r1p center2 r2p * (center2.x - center1.x) / distance center1 center2

/-- `circleCircleIntersection(c1, c2, points)` from `intersections.ts`. -/
noncomputable def circleCircleIntersection (c1 c2 : Circle) (points : PMap) :
    List IntersectionPoint :=
  match List.lookup c1.centerId points, List.lookup c1.radiusPointId points,
        List.lookup c2.centerId points, List.lookup c2.radiusPointId points with
  | some center1, some r1p, some center2, some r2p =>
    if distance center1 center2 > distance center1 r1p + distance center2 r2p ∨
       distance center1 center2 < |distance center1 r1p - distance center2 r2p| ∨
       distance center1 center2 < 1e-10 then []
    else
      [⟨ccPx center1 r1p center2 r2p + ccOffX center1 r1p center2 r2p,
        ccPy center1 r1p center2 r2p - ccOffY center1 r1p center2 r2p⟩,
       ⟨ccPx center1 r1p center2 r2p - ccOffX center1 r1p center2 r2p,
        ccPy center1 r1p center2 r2p + ccOffY center1 r1p center2 r2p⟩]
  | _, _, _, _ => []

/-- `getBisectorLinePoints(bisector, points)`: the synthetic pair of
sample points (offset ±10000 along the rotated segment direction from
the midpoint) representing the infinite bisector line; `null` when a
referenced point is missing or the segment is shorter than `1e-10`. -/
noncomputable def getBisectorLinePoints (bisector : PerpendicularBisector)
    (points : PMap) : Option (Point × Point) :=
  match List.lookup bisector.p1Id points, List.lookup bisector.p2Id points with
  | some p1, some p2 =>
    let midX := (p1.x + p2.x) / 2
    let midY := (p1.y + p2.y) / 2
    let dx := p2.x - p1.x
    let dy := p2.y - p1.y
    let len := Real.sqrt (dx * dx + dy * dy)
    if len < 1e-10 then none
    else
      let perpX := -dy / len
      let perpY := dx / len
      some (⟨"", midX - perpX * 10000, midY - perpY * 10000, false, none⟩,
            ⟨"", midX + perpX * 10000, midY + perpY * 10000, false, none⟩)
  | _, _ => none

/-- The reference-geometry extraction at the head of `getPerpLinePoints`:
two points spanning the direction of the referenced element.  A `line`
or `perpendicular_bisector` reference yields its own two points; a
`perpendicular_line` reference is resolved one level deep through *its*
reference (only when that is a `line` or `perpendicular_bisector`);
every other shape leaves `refP1`/`refP2` undefined. -/
def gplRefPoints (refEl : GeoElement) (points : PMap)
    (allElements : List GeoElement) : Option (Point × Point) :=
  match refEl with
  | .line l =>
    match List.lookup l.p1Id points, List.lookup l.p2Id points with
    | some a, some b => some (a, b)
    | _, _ => none
  | .pbis b =>
    match List.lookup b.p1Id points, List.lookup b.p2Id points with
    | some a, some c => some (a, c)
    | _, _ => none
  | .pline pl2 =>
    match List.lookup pl2.pointId points with
    | none => none
    | some _ =>
      match allElements.find? (fun e => e.id == pl2.referenceLineId) with
      | some (.line l) =>
        match List.lookup l.p1Id points, List.lookup l.p2Id points with
        | some a, some b => some (a, b)
        | _, _ => none
      | some (.pbis b) =>
        match List.lookup b.p1Id points, List.lookup b.p2Id points with
        | some a, some c => some (a, c)
        | _, _ => none
      | _ => none
  | _ => none

/-- Whether an element carries the `perpendicular_bisector` tag (the
`refEl.type === 'perpendicular_bisector'` test). -/
def isPBis : GeoElement → Bool
  | .pbis _ => true
  | _ => false

/-- `getPerpLinePoints(perpLine, points, allElements)`: the synthetic
sample-point pair for a perpendicular line.  After extracting the
reference direction `(refDx, refDy)`, the code rotates it once more when
the *directly* referenced element is a `perpendicular_bisector` (and
only then), normalizes, rotates 90° and offsets ±10000 from the
through-point. -/
noncomputable def getPerpLinePoints (perpLine : PerpendicularLine)
    (points : PMap) (allElements : List GeoElement) : Option (Point × Point) :=
  match List.lookup perpLine.pointId points with
  | none => none
  | some point =>
    match allElements.find? (fun e => e.id == perpLine.referenceLineId) with
    | none => none
    | some refEl =>
      match gplRefPoints refEl points allElements with
      | none => none
      | some (refP1, refP2) =>
        let refDx0 := refP2.x - refP1.x
        let refDy0 := refP2.y - refP1.y
        let refLen0 := Real.sqrt (refDx0 * refDx0 + refDy0 * refDy0)
        if refLen0 < 1e-10 then none
        else
          let refDx := if isPBis refEl then -refDy0 else refDx0
          let refDy := if isPBis refEl then refDx0 else refDy0
          let refLen := if isPBis refEl then hypotR (-refDy0) refDx0 else refLen0
          let perpX := -refDy / refLen
          let perpY := refDx / refLen
          some (⟨"", point.x - perpX * 10000, point.y - perpY * 10000, false, none⟩,
                ⟨"", point.x + perpX * 10000, point.y + perpY * 10000, false, none⟩)

/-- `linePerpLineIntersection`: reduce the perpendicular line to a
synthetic temp line and temp points, then delegate. -/
noncomputable def linePerpLineIntersection (line : Line)
    (perpLine : PerpendicularLine) (points : PMap)
    (allElements : List GeoElement) : List IntersectionPoint :=
  match getPerpLinePoints perpLine points allElements with
  | none => []
  | some pp =>
    lineLineIntersection line ⟨"temp", "temp1", "temp2", true⟩
      (("temp2", pp.2) :: ("temp1", pp.1) :: points)

/-- `circlePerpLineIntersection`. -/
noncomputable def circlePerpLineIntersection (circle : Circle)
    (perpLine : PerpendicularLine) (points : PMap)
    (allElements : List GeoElement) : List IntersectionPoint :=
  match getPerpLinePoints perpLine points allElements with
  | none => []
  | some pp =>
    lineCircleIntersection ⟨"temp", "temp1", "temp2", true⟩ circle
      (("temp2", pp.2) :: ("temp1", pp.1) :: points)

/-- `perpLinePerpLineIntersection`. -/
noncomputable def perpLinePerpLineIntersection (perpLine1 perpLine2 : PerpendicularLine)
    (points : PMap) (allElements : List GeoElement) : List IntersectionPoint :=
  match getPerpLinePoints perpLine1 points allElements,
        getPerpLinePoints perpLine2 points allElements with
  | some pp1, some pp2 =>
    lineLineIntersection ⟨"temp1", "temp1a", "temp1b", true⟩
      ⟨"temp2", "temp2a", "temp2b", true⟩
      (("temp2b", pp2.2) :: ("temp2a", pp2.1) ::
       ("temp1b", pp1.2) :: ("temp1a", pp1.1) :: points)
  | _, _ => []

/-- `bisectorPerpLineIntersection`. -/
noncomputable def bisectorPerpLineIntersection (bisector : PerpendicularBisector)
    (perpLine : PerpendicularLine) (points : PMap)
    (allElements : List GeoElement) : List IntersectionPoint :=
  match getBisectorLinePoints bisector points,
        getPerpLinePoints perpLine points allElements with
  | some bp, some pp =>
    lineLineIntersection ⟨"temp1", "temp1a", "temp1b", true⟩
      ⟨"temp2", "temp2a", "temp2b", true⟩
      (("temp2b", pp.2) :: ("temp2a", pp.1) ::
       ("temp1b", bp.2) :: ("temp1a", bp.1) :: points)
  | _, _ => []

/-- `lineBisectorIntersection`. -/
noncomputable def lineBisectorIntersection (line : Line)
    (bisector : PerpendicularBisector) (points : PMap) : List IntersectionPoint :=
  match getBisectorLinePoints bisector points with
  | none => []
  | some bp =>
    lineLineIntersection line ⟨"temp", "temp1", "temp2", true⟩
      (("temp2", bp.2) :: ("temp1", bp.1) :: points)

/-- `bisectorBisectorIntersection`. -/
noncomputable def bisectorBisectorIntersection (bisector1 bisector2 : PerpendicularBisector)
    (points : PMap) : List IntersectionPoint :=
  match getBisectorLinePoints bisector1 points,
        getBisectorLinePoints bisector2 points with
  | some bp1, some bp2 =>
    lineLineIntersection ⟨"temp1", "temp1a", "temp1b", true⟩
      ⟨"temp2", "temp2a", "temp2b", true⟩
      (("temp2b", bp2.2) :: ("temp2a", bp2.1) ::
       ("temp1b", bp1.2) :: ("temp1a", bp1.1) :: points)
  | _, _ => []

/-- `circleBisectorIntersection`. -/
noncomputable def circleBisectorIntersection (circle : Circle)
    (bisector : PerpendicularBisector) (points : PMap) : List IntersectionPoint :=
  match getBisectorLinePoints bisector points with
  | none => []
  | some bp =>
    lineCircleIntersection ⟨"temp", "temp1", "temp2", true⟩ circle
      (("temp2", bp.2) :: ("temp1", bp.1) :: points)

/-- `findIntersections(el1, el2, points, allElements)` — the
order-independent dispatch of `intersections.ts`. -/
noncomputable def findIntersections (el1 el2 : GeoElement) (points : PMap)
    (allElements : List GeoElement) : List IntersectionPoint :=
  match el1, el2 with
  | .point _, _ => []
  | _, .point _ => []
  | .line l1, .line l2 => lineLineIntersection l1 l2 points
  | .line l, .circle c => lineCircleIntersection l c points
  | .circle c, .line l => lineCircleIntersection l c points
  | .circle c1, .circle c2 => circleCircleIntersection c1 c2 points
  | .pbis b, .line l => lineBisectorIntersection l b points
  | .line l, .pbis b => lineBisectorIntersection l b points
  | .pbis b, .circle c => circleBisectorIntersection c b points
  | .circle c, .pbis b => circleBisectorIntersection c b points
  | .pbis b1, .pbis b2 => bisectorBisectorIntersection b1 b2 points
  | .pline pl, .line l => linePerpLineIntersection l pl points allElements
  | .line l, .pline pl => linePerpLineIntersection l pl points allElements
  | .pline pl, .circle c => circlePerpLineIntersection c pl points allElements
  | .circle c, .pline pl => circlePerpLineIntersection c pl points allElements
  | .pline pl, .pbis b => bisectorPerpLineIntersection b pl points allElements
  | .pbis b, .pline pl => bisectorPerpLineIntersection b pl points allElements
  | .pline pl1, .pline pl2 => perpLinePerpLineIntersection pl1 pl2 points allElements

/-! ## Snap resolver (`AppCanvas.tsx`) -/

/-- `const SNAP_RADIUS = 15` — snapping radius in on-screen pixels. -/
def SNAP_RADIUS : ℝ := 15

/-- `findSnapTarget(mouse, points)` from `AppCanvas.tsx`: iterate over
the point list and return the position of the *first* point whose
distance to the cursor is below `SNAP_RADIUS / zoom`; `null` otherwise. -/
noncomputable def findSnapTarget (mouse : Vec2) (points : List Point)
    (zoom : ℝ) : Option Vec2 :=
  match points with
  | [] => none
  | p :: rest =>
    if hypotR (p.x - mouse.x) (p.y - mouse.y) < SNAP_RADIUS / zoom then
      some ⟨p.x, p.y⟩
    else findSnapTarget mouse rest zoom

/-! ## Perpendicular-bisector tool (`PerpendicularBisectorTool.tsx`) -/

/-- The closest-point scan at the head of
`handlePerpendicularBisectorClick`: fold over all elements, keeping the
point (with its distance) that is both within `threshold` and closer
than the best so far (`minDist` starts at `Infinity`, so the first
in-threshold point always wins). -/
noncomputable def closestScan (worldX worldY threshold : ℝ)
    (elements : List GeoElement) : Option (Point × ℝ) :=
  elements.foldl (fun acc el =>
    match el with
    | .point p =>
      let dist := Real.sqrt ((p.x - worldX) * (p.x - worldX) +
                             (p.y - worldY) * (p.y - worldY))
      match acc with
      | none => if dist < threshold then some (p, dist) else none
      | some best =>
        if dist < threshold ∧ dist < best.2 then some (p, dist) else some best
    | _ => acc) none

/-- The `closestPoint` found by the scan (dropping the tracked distance). -/
noncomputable def closestPoint (worldX worldY threshold : ℝ)
    (elements : List GeoElement) : Option Point :=
  (closestScan worldX worldY threshold elements).map Prod.fst

/-- Whether some element is a `perpendicular_bisector` over the given
pair of point ids, in either order — the `bisectorExists` duplicate
check of the tool. -/
def bisectorExists (elements : List GeoElement) (p1Id p2Id : String) : Bool :=
  elements.any (fun el =>
    match el with
    | .pbis b => (b.p1Id == p1Id && b.p2Id == p2Id) ||
                 (b.p1Id == p2Id && b.p2Id == p1Id)
    | _ => false)

/-- `handlePerpendicularBisectorClick(worldX, worldY, elements,
isDrawing, tempData, zoom, store)` from `PerpendicularBisectorTool.tsx`.
`newId` stands for the `generateId()` call that names a freshly created
bisector.  A first click stages the closest in-threshold point; a second
click cancels on a repeated point or an existing bisector for the
unordered pair, and otherwise commits exactly one bisector.  (When
`isDrawing` is true the staged payload is always the `pb` variant; a
missing payload would fault in the original, so the model leaves the
store untouched there — no claim exercises that path.) -/
noncomputable def handlePerpendicularBisectorClick (worldX worldY : ℝ)
    (elements : List GeoElement) (drawing : Bool) (tempData : Option TempData)
    (zoom : ℝ) (store : StoreState) (newId : String) : StoreState :=
  match closestPoint worldX worldY (12 / zoom) elements with
  | none => store
  | some closest =>
    if drawing = false then
      store.startConstruction (TempData.pb closest.id closest)
    else
      match tempData with
      | some (TempData.pb p1Id _) =>
        if p1Id = closest.id then store.completeConstruction
        else if bisectorExists elements p1Id closest.id then
          store.completeConstruction
        else
          (store.addElement (.pbis ⟨newId, p1Id, closest.id⟩)).completeConstruction
      | none => store

/-- One full click of the tool as dispatched from `AppCanvas.tsx`: the
handler receives `elements`, `isDrawing` and `tempData` read from the
same store it mutates. -/
noncomputable def pbClick (worldX worldY zoom : ℝ) (newId : String)
    (s : StoreState) : StoreState :=
  handlePerpendicularBisectorClick worldX worldY s.elements s.isDrawing
    s.tempData zoom s newId

/-- Euclidean distance from a computed intersection point to a stored
point (used only to state the specification's distance properties). -/
noncomputable def ipDist (p : IntersectionPoint) (c : Point) : ℝ :=
  hypotR (p.x - c.x) (p.y - c.y)

/-- The number of `perpendicular_bisector` elements over the unordered
pair of point ids `{a, b}` (used only to state uniqueness properties). -/
def countPBisPair (es : List GeoElement) (a b : String) : Nat :=
  (es.filter (fun el => match el with
    | .pbis bb => (bb.p1Id == a && bb.p2Id == b) || (bb.p1Id == b && bb.p2Id == a)
    | _ => false)).length

/-! ## General lemmas about the square-root helpers -/

theorem hypotR_nonneg (a b : ℝ) : 0 ≤ hypotR a b :=
  Real.sqrt_nonneg _

theorem hypotR_mul_self (a b : ℝ) : hypotR a b * hypotR a b = a * a + b * b :=
  Real.mul_self_sqrt (by nlinarith [mul_self_nonneg a, mul_self_nonneg b])

theorem hypotR_eq_of_sq (a b r : ℝ) (hr : 0 ≤ r) (h : a * a + b * b = r * r) :
    hypotR a b = r := by
  rw [hypotR, h, Real.sqrt_mul_self hr]

theorem distance_nonneg (a b : Point) : 0 ≤ distance a b :=
  Real.sqrt_nonneg _

theorem distance_mul_self (a b : Point) :
    distance a b * distance a b = (a.x - b.x) * (a.x - b.x) + (a.y - b.y) * (a.y - b.y) :=
  hypotR_mul_self _ _

/-! ## History manager lemmas -/

theorem pushHist_getLast (H : List (List GeoElement)) (i : Nat) (N : List GeoElement) :
    (pushHist H i N).1.getLast? = some N := by
  simp only [pushHist]
  split
  · next hgt =>
    have hlen : 1 ≤ (H.take (i + 1)).length := by
      simp only [List.length_append, List.length_take, List.length_cons,
        List.length_nil] at hgt
      simp only [List.length_take]
      omega
    rw [List.drop_append_of_le_length hlen, List.getLast?_concat]
  · exact List.getLast?_concat _

theorem pushHist_pos (H : List (List GeoElement)) (i : Nat) (N : List GeoElement) :
    0 < (pushHist H i N).2 := by
  simp only [pushHist]
  split
  · next hgt =>
    simp only [List.length_append, List.length_take, List.length_cons,
      List.length_nil] at hgt
    omega
  · simp

theorem pushHist_top (H : List (List GeoElement)) (i : Nat) (N : List GeoElement) :
    (pushHist H i N).1.length - 1 ≤ (pushHist H i N).2 := by
  simp only [pushHist]
  split
  · next hgt =>
    simp only [List.length_drop, List.length_append, List.length_take,
      List.length_cons, List.length_nil]
    omega
  · simp only [List.length_append, List.length_take, List.length_cons,
      List.length_nil]
    omega

theorem pushHist_length (H : List (List GeoElement)) (i : Nat) (N : List GeoElement)
    (hi : i < H.length) (hle : H.length ≤ 50) :
    (pushHist H i N).1.length = min (i + 2) 50 := by
  simp only [pushHist]
  split
  · next hgt =>
    simp only [List.length_drop, List.length_append, List.length_take,
      List.length_cons, List.length_nil] at *
    omega
  · next hng =>
    simp only [List.length_append, List.length_take, List.length_cons,
      List.length_nil] at *
    omega

theorem pushHist_prev (H : List (List GeoElement)) (i : Nat) (N : List GeoElement)
    (hi : i < H.length) :
    (pushHist H i N).1[(pushHist H i N).2 - 1]? = H[i]? := by
  simp only [pushHist]
  have htl : (H.take (i + 1)).length = i + 1 := by
    simp only [List.length_take]
    omega
  split
  · next hgt =>
    have h1 : 1 ≤ (H.take (i + 1)).length := by omega
    have hige : 49 ≤ i := by
      simp only [List.length_append, List.length_take, List.length_cons,
        List.length_nil] at hgt
      omega
    rw [List.drop_append_of_le_length h1]
    simp only
    have hlt : i + 1 - 1 - 1 < ((H.take (i + 1)).drop 1).length := by
      simp only [List.length_drop]
      omega
    rw [List.getElem?_append_left hlt, List.getElem?_drop]
    have : 1 + (i + 1 - 1 - 1) = i := by omega
    rw [this]
    exact List.getElem?_take_of_lt (by omega)
  · simp only
    have hlt : i + 1 - 1 < (H.take (i + 1)).length := by omega
    rw [List.getElem?_append_left hlt]
    simp only [Nat.add_sub_cancel]
    exact List.getElem?_take_of_lt (by omega)

/-- Claim C1: for every consistent store state and every batch of N
elements, `addElements` appends all N elements, pushes exactly one
history snapshot (the stack grows to `min (p+2) 50` entries and now ends
in the new collection, with `canUndo` set), and one subsequent `undo()`
restores exactly the collection held before the call. -/
theorem addElements_atomic_undo (s : StoreState) (es : List GeoElement)
    (hc : Consistent s) :
    (s.addElements es).elements = s.elements ++ es ∧
    (s.addElements es).history.getLast? = some (s.elements ++ es) ∧
    (s.addElements es).history.length = min (s.historyIndex + 2) 50 ∧
    (s.addElements es).canUndo = true ∧
    ((s.addElements es).undo).elements = s.elements := by
  obtain ⟨hget, hle⟩ := hc
  have hi : s.historyIndex < s.history.length := by
    by_contra h
    rw [List.getElem?_eq_none (by omega)] at hget
    exact Option.noConfusion hget
  refine ⟨rfl, ?_, ?_, ?_, ?_⟩
  · exact pushHist_getLast _ _ _
  · exact pushHist_length _ _ _ hi hle
  · simp only [StoreState.addElements, withFlags, decide_eq_true_eq]
    exact pushHist_pos _ _ _
  · show (StoreState.undo _).elements = s.elements
    rw [StoreState.undo]
    rw [if_pos (by simpa [StoreState.addElements, withFlags] using pushHist_pos s.history s.historyIndex (s.elements ++ es))]
    simp only [StoreState.addElements, withFlags]
    rw [pushHist_prev _ _ _ hi, hget]
    rfl

/-- Witness for C1 at a concrete consistent state and a two-element
batch. -/
theorem addElements_atomic_undo_witness :
    let pA : Point := ⟨"A", 1, 2, true, none⟩
    let pB : Point := ⟨"B", 3, 4, true, none⟩
    let s : StoreState :=
      ⟨[.point pA], [[], [.point pA]], 1, true, false, false, none⟩
    (s.addElements [.point pB]).elements = [.point pA] ++ [.point pB] ∧
    (s.addElements [.point pB]).history.getLast? =
      some ([.point pA] ++ [.point pB]) ∧
    (s.addElements [.point pB]).history.length = min (1 + 2) 50 ∧
    (s.addElements [.point pB]).canUndo = true ∧
    ((s.addElements [.point pB]).undo).elements = [.point pA] :=
  addElements_atomic_undo _ _ ⟨rfl, by simp⟩

theorem histPrefixes_length (es : List GeoElement) :
    (histPrefixes es).length = es.length + 1 := by
  simp [histPrefixes]

theorem histPrefixes_get (es : List GeoElement) (m : Nat) (hm : m < es.length + 1) :
    (histPrefixes es)[m]? = some (es.take m) := by
  simp [histPrefixes, List.getElem?_map, List.getElem?_range hm]

theorem histPrefixes_concat (es : List GeoElement) (e : GeoElement) :
    histPrefixes (es ++ [e]) = histPrefixes es ++ [es ++ [e]] := by
  simp only [histPrefixes, List.length_append, List.length_cons, List.length_nil]
  rw [show es.length + (0 + 1) + 1 = (es.length + 1) + 1 by omega, List.range_succ,
    List.map_append]
  congr 1
  · apply List.map_congr_left
    intro k hk
    rw [List.mem_range] at hk
    exact List.take_append_of_le_length (by omega)
  · simp only [List.map_cons, List.map_nil, List.cons.injEq, and_true]
    rw [show es.length + 1 = (es ++ [e]).length by simp, List.take_length]

theorem commitSeq_spec (es : List GeoElement) (h : es.length ≤ 49) :
    commitSeq es =
      ⟨es, histPrefixes es, es.length, decide (0 < es.length), false, false, none⟩ := by
  induction es using List.reverseRecOn with
  | nil => rfl
  | append_singleton es e ih =>
    have h' : es.length ≤ 48 := by
      simp only [List.length_append, List.length_cons, List.length_nil] at h
      omega
    have hstep : commitSeq (es ++ [e]) = (commitSeq es).addElement e := by
      simp [commitSeq, List.foldl_append]
    rw [hstep, ih (by omega), StoreState.addElement]
    simp only [withFlags, pushHist]
    have htake : (histPrefixes es).take (es.length + 1) = histPrefixes es := by
      rw [← histPrefixes_length es, List.take_length]
    rw [htake]
    have hlen : (histPrefixes es ++ [es ++ [e]]).length = es.length + 2 := by
      simp [histPrefixes_length]
    rw [if_neg (by omega)]
    simp only [hlen]
    rw [← histPrefixes_concat]
    congr 1 <;> simp

theorem undoN_commit (es : List GeoElement) (h : es.length ≤ 49) (j : Nat)
    (hj : j ≤ es.length) :
    undoN j (commitSeq es) =
      ⟨es.take (es.length - j), histPrefixes es, es.length - j,
       decide (0 < es.length - j), decide (es.length - j < es.length),
       false, none⟩ := by
  induction j with
  | zero =>
    rw [undoN, Function.iterate_zero, id, commitSeq_spec es h]
    simp [List.take_length]
  | succ j ih =>
    have hj' : j ≤ es.length := by omega
    rw [undoN, Function.iterate_succ_apply', ← undoN, ih hj']
    rw [StoreState.undo]
    rw [if_pos (by simp only; omega)]
    simp only [withFlags]
    have hget : (histPrefixes es)[es.length - j - 1]? = some (es.take (es.length - j - 1)) :=
      histPrefixes_get es _ (by omega)
    rw [hget]
    simp only [Option.getD_some, histPrefixes_length]
    have e1 : es.length - j - 1 = es.length - (j + 1) := by omega
    have e2 : es.length + 1 - 1 = es.length := by omega
    rw [e1, e2]

/-- Claim C2 (amended): starting from the empty collection, K sequential
single-element commits followed by K `undo()` calls return the
collection to the empty baseline with `canUndo = false` — *provided the
50-entry cap is never exceeded*, i.e. `K ≤ 49`.  (Once a push overflows
the cap, `history.shift()` evicts the oldest snapshot, which is the
empty baseline itself, so the baseline is not a permanent undo floor;
see the counterexample.) -/
theorem commits_undos_baseline (es : List GeoElement) (h : es.length ≤ 49) :
    (undoN es.length (commitSeq es)).elements = [] ∧
    (undoN es.length (commitSeq es)).canUndo = false := by
  rw [undoN_commit es h es.length le_rfl]
  simp

/-- Witness for the amended C2 at K = 1. -/
theorem commits_undos_baseline_witness :
    (undoN 1 (commitSeq [GeoElement.point ⟨"P", 0, 0, true, none⟩])).elements = [] ∧
    (undoN 1 (commitSeq [GeoElement.point ⟨"P", 0, 0, true, none⟩])).canUndo = false :=
  commits_undos_baseline [GeoElement.point ⟨"P", 0, 0, true, none⟩] (by simp)

set_option maxRecDepth 20000 in
/-- Counterexample to C2 as stated: at K = 50 the push of the 50th
commit makes the stack exceed 50 entries, `history.shift()` drops the
empty baseline (snapshot index 0), and 50 subsequent `undo()` calls
bottom out at the *one-element* collection of the first commit — the
empty collection is no longer reachable, yet `canUndo` reports false. -/
theorem commits_undos_cap_cex :
    ((undoN 50 (commitSeq (List.replicate 50
        (GeoElement.point ⟨"", 0, 0, true, none⟩)))).elements).length = 1 ∧
    (undoN 50 (commitSeq (List.replicate 50
        (GeoElement.point ⟨"", 0, 0, true, none⟩)))).canUndo = false := by
  constructor <;> rfl

/-- Claim C10: `updateElement(id, updates)` where the targeted element is
a `perpendicular_bisector` or `perpendicular_line` (or where no element
has the id) leaves every element unchanged, yet still pushes exactly one
history snapshot: `canUndo` becomes true, the redo branch is discarded
(`canRedo` false), the stack now ends in the (unchanged) collection and
has grown to `min (p+2) 50` entries. -/
theorem updateElement_frame (s : StoreState) (id : String) (u : GeoUpdate)
    (hty : ∀ el ∈ s.elements, el.id = id → isPBis el = true ∨ isPLine el = true) :
    (s.updateElement id u).elements = s.elements ∧
    (s.updateElement id u).canUndo = true ∧
    (s.updateElement id u).canRedo = false ∧
    (s.updateElement id u).history.getLast? = some s.elements ∧
    (Consistent s →
      (s.updateElement id u).history.length = min (s.historyIndex + 2) 50) := by
  have hmap : (s.updateElement id u).elements = s.elements := by
    show s.elements.map _ = s.elements
    conv_rhs => rw [← List.map_id s.elements]
    apply List.map_congr_left
    intro el hel
    by_cases hid : el.id = id
    · rw [if_neg (not_not_intro hid)]
      rcases hty el hel hid with hb | hl
      · cases el <;> simp_all [isPBis]
      · cases el <;> simp_all [isPLine]
    · rw [if_pos hid]
      rfl
  refine ⟨hmap, ?_, ?_, ?_, ?_⟩
  · show decide (0 < (pushHist s.history s.historyIndex
      ((s.updateElement id u).elements)).2) = true
    simp only [decide_eq_true_eq]
    exact pushHist_pos _ _ _
  · show decide ((pushHist s.history s.historyIndex
      ((s.updateElement id u).elements)).2 <
      (pushHist s.history s.historyIndex ((s.updateElement id u).elements)).1.length - 1)
      = false
    simp only [decide_eq_false_iff_not, Nat.not_lt]
    exact pushHist_top _ _ _
  · show (pushHist s.history s.historyIndex
      ((s.updateElement id u).elements)).1.getLast? = some s.elements
    rw [hmap]
    exact pushHist_getLast _ _ _
  · rintro ⟨hget, hle⟩
    have hi : s.historyIndex < s.history.length := by
      by_contra hcon
      rw [List.getElem?_eq_none (by omega)] at hget
      exact Option.noConfusion hget
    show (pushHist s.history s.historyIndex
      ((s.updateElement id u).elements)).1.length = min (s.historyIndex + 2) 50
    exact pushHist_length _ _ _ hi hle

/-- Witness for C10: updating a perpendicular bisector with a coordinate
update leaves the collection untouched while growing the history. -/
theorem updateElement_frame_witness :
    let b : GeoElement := .pbis ⟨"b1", "p", "q"⟩
    let s : StoreState := ⟨[b], [[], [b]], 1, true, false, false, none⟩
    let u : GeoUpdate := ⟨some 3, none, none, none, none, none, none, none, none⟩
    (s.updateElement "b1" u).elements = s.elements ∧
    (s.updateElement "b1" u).canUndo = true ∧
    (s.updateElement "b1" u).canRedo = false ∧
    (s.updateElement "b1" u).history.getLast? = some s.elements ∧
    (Consistent s →
      (s.updateElement "b1" u).history.length = min (s.historyIndex + 2) 50) :=
  updateElement_frame _ "b1" _
    (by
      intro el hel hid
      simp only [List.mem_singleton] at hel
      subst hel
      exact Or.inl rfl)

/-! ## Line–line intersection (C5) -/

/-- Claim C5: when the four referenced points exist,
`lineLineIntersection` returns the empty list exactly when the magnitude
of the 2×2 determinant of the two direction vectors is below `1e-10`
(which covers any two lines with an identical direction vector), and
otherwise returns exactly one point that satisfies both parametric line
equations — the solution of the 2×2 linear system. -/
theorem lineLine_spec (l1 l2 : Line) (pts : PMap) (p1 p2 p3 p4 : Point)
    (h1 : List.lookup l1.p1Id pts = some p1)
    (h2 : List.lookup l1.p2Id pts = some p2)
    (h3 : List.lookup l2.p1Id pts = some p3)
    (h4 : List.lookup l2.p2Id pts = some p4) :
    (|llDenom p1 p2 p3 p4| < 1e-10 → lineLineIntersection l1 l2 pts = []) ∧
    (¬ |llDenom p1 p2 p3 p4| < 1e-10 →
      ∃ q t u, lineLineIntersection l1 l2 pts = [q] ∧
        q.x = p1.x + t * (p2.x - p1.x) ∧ q.y = p1.y + t * (p2.y - p1.y) ∧
        q.x = p3.x + u * (p4.x - p3.x) ∧ q.y = p3.y + u * (p4.y - p3.y)) ∧
    ((p2.x - p1.x = p4.x - p3.x ∧ p2.y - p1.y = p4.y - p3.y) →
      lineLineIntersection l1 l2 pts = []) := by
  have hred : lineLineIntersection l1 l2 pts =
      if |llDenom p1 p2 p3 p4| < 1e-10 then []
      else [⟨p1.x + llT p1 p2 p3 p4 * (p2.x - p1.x),
             p1.y + llT p1 p2 p3 p4 * (p2.y - p1.y)⟩] := by
    rw [lineLineIntersection, h1, h2, h3, h4]
  refine ⟨?_, ?_, ?_⟩
  · intro h
    rw [hred, if_pos h]
  · intro h
    have hd : llDenom p1 p2 p3 p4 ≠ 0 := by
      intro h0
      rw [h0] at h
      simp at h
      linarith
    rw [hred, if_neg h]
    refine ⟨_, llT p1 p2 p3 p4,
      ((p3.x - p1.x) * (p2.y - p1.y) - (p3.y - p1.y) * (p2.x - p1.x)) /
        llDenom p1 p2 p3 p4, rfl, rfl, rfl, ?_, ?_⟩
    · show p1.x + llT p1 p2 p3 p4 * (p2.x - p1.x) = _
      rw [llT]
      rw [llDenom] at hd ⊢
      field_simp
      ring
    · show p1.y + llT p1 p2 p3 p4 * (p2.y - p1.y) = _
      rw [llT]
      rw [llDenom] at hd ⊢
      field_simp
      ring
  · rintro ⟨hx, hy⟩
    have : llDenom p1 p2 p3 p4 = 0 := by
      rw [llDenom, hx, hy]
      ring
    rw [hred, if_pos (by rw [this]; norm_num)]

/-- Witness for C5: the horizontal line through (0,0),(1,0) and the
vertical line through (2,−1),(2,1) intersect in exactly one point lying
on both lines. -/
theorem lineLine_spec_witness :
    let pa : Point := ⟨"a", 0, 0, true, none⟩
    let pb : Point := ⟨"b", 1, 0, true, none⟩
    let pc : Point := ⟨"c", 2, -1, true, none⟩
    let pd : Point := ⟨"d", 2, 1, true, none⟩
    let pts : PMap := [("a", pa), ("b", pb), ("c", pc), ("d", pd)]
    ∃ q t u,
      lineLineIntersection ⟨"l1", "a", "b", true⟩ ⟨"l2", "c", "d", true⟩ pts = [q] ∧
      q.x = pa.x + t * (pb.x - pa.x) ∧ q.y = pa.y + t * (pb.y - pa.y) ∧
      q.x = pc.x + u * (pd.x - pc.x) ∧ q.y = pc.y + u * (pd.y - pc.y) :=
  (lineLine_spec ⟨"l1", "a", "b", true⟩ ⟨"l2", "c", "d", true⟩
    [("a", ⟨"a", 0, 0, true, none⟩), ("b", ⟨"b", 1, 0, true, none⟩),
     ("c", ⟨"c", 2, -1, true, none⟩), ("d", ⟨"d", 2, 1, true, none⟩)]
    ⟨"a", 0, 0, true, none⟩ ⟨"b", 1, 0, true, none⟩
    ⟨"c", 2, -1, true, none⟩ ⟨"d", 2, 1, true, none⟩
    rfl rfl rfl rfl).2.1 (by norm_num [llDenom])

/-! ## Circle–circle intersection (C3) -/

theorem circleAlg_dist1 (c1x c1y ux uy A H D r1 : ℝ) (hD : D ≠ 0)
    (hkey : ux * ux + uy * uy = D * D) (hsum : A * A + H * H = r1 * r1)
    (hr1 : 0 ≤ r1) :
    hypotR (c1x + A * ux / D + H * uy / D - c1x)
           (c1y + A * uy / D - H * ux / D - c1y) = r1 := by
  apply hypotR_eq_of_sq _ _ _ hr1
  field_simp
  linear_combination (A * A + H * H) * hkey + (D * D) * hsum

theorem circleAlg_dist1' (c1x c1y ux uy A H D r1 : ℝ) (hD : D ≠ 0)
    (hkey : ux * ux + uy * uy = D * D) (hsum : A * A + H * H = r1 * r1)
    (hr1 : 0 ≤ r1) :
    hypotR (c1x + A * ux / D - H * uy / D - c1x)
           (c1y + A * uy / D + H * ux / D - c1y) = r1 := by
  apply hypotR_eq_of_sq _ _ _ hr1
  field_simp
  linear_combination (A * A + H * H) * hkey + (D * D) * hsum

theorem circleAlg_dist2 (c1x c1y c2x c2y A H D r1 r2 : ℝ) (hD : D ≠ 0)
    (hkey : (c2x - c1x) * (c2x - c1x) + (c2y - c1y) * (c2y - c1y) = D * D)
    (hA2 : A * (2 * D) = r1 * r1 - r2 * r2 + D * D)
    (hsum : A * A + H * H = r1 * r1) (hr2 : 0 ≤ r2) :
    hypotR (c1x + A * (c2x - c1x) / D + H * (c2y - c1y) / D - c2x)
           (c1y + A * (c2y - c1y) / D - H * (c2x - c1x) / D - c2y) = r2 := by
  apply hypotR_eq_of_sq _ _ _ hr2
  field_simp
  linear_combination ((A - D) * (A - D) + H * H) * hkey +
    (D * D) * hsum - (D * D) * hA2

theorem circleAlg_dist2' (c1x c1y c2x c2y A H D r1 r2 : ℝ) (hD : D ≠ 0)
    (hkey : (c2x - c1x) * (c2x - c1x) + (c2y - c1y) * (c2y - c1y) = D * D)
    (hA2 : A * (2 * D) = r1 * r1 - r2 * r2 + D * D)
    (hsum : A * A + H * H = r1 * r1) (hr2 : 0 ≤ r2) :
    hypotR (c1x + A * (c2x - c1x) / D - H * (c2y - c1y) / D - c2x)
           (c1y + A * (c2y - c1y) / D + H * (c2x - c1x) / D - c2y) = r2 := by
  apply hypotR_eq_of_sq _ _ _ hr2
  field_simp
  linear_combination ((A - D) * (A - D) + H * H) * hkey +
    (D * D) * hsum - (D * D) * hA2

/-- Claim C3: when the four referenced points exist,
`circleCircleIntersection` returns no points exactly when the center
distance `d` satisfies `d > r1 + r2`, `d < |r1 - r2|` or `d < 1e-10`
(coincident centers); otherwise it returns exactly two points, each at
distance exactly `r1` from `center1` and `r2` from `center2` (hence
within every epsilon), and symmetric about the line joining the centers:
their difference is perpendicular to the center-to-center vector and
their midpoint lies on that line. -/
theorem circleCircle_spec (c1 c2 : Circle) (pts : PMap)
    (center1 r1p center2 r2p : Point)
    (h1 : List.lookup c1.centerId pts = some center1)
    (h2 : List.lookup c1.radiusPointId pts = some r1p)
    (h3 : List.lookup c2.centerId pts = some center2)
    (h4 : List.lookup c2.radiusPointId pts = some r2p) :
    (circleCircleIntersection c1 c2 pts = [] ↔
      distance center1 center2 > distance center1 r1p + distance center2 r2p ∨
      distance center1 center2 < |distance center1 r1p - distance center2 r2p| ∨
      distance center1 center2 < 1e-10) ∧
    (¬ (distance center1 center2 > distance center1 r1p + distance center2 r2p ∨
        distance center1 center2 < |distance center1 r1p - distance center2 r2p| ∨
        distance center1 center2 < 1e-10) →
      ∃ q1 q2, circleCircleIntersection c1 c2 pts = [q1, q2] ∧
        ipDist q1 center1 = distance center1 r1p ∧
        ipDist q1 center2 = distance center2 r2p ∧
        ipDist q2 center1 = distance center1 r1p ∧
        ipDist q2 center2 = distance center2 r2p ∧
        (q1.x - q2.x) * (center2.x - center1.x) +
          (q1.y - q2.y) * (center2.y - center1.y) = 0 ∧
        ∃ t, (q1.x + q2.x) / 2 = center1.x + t * (center2.x - center1.x) ∧
             (q1.y + q2.y) / 2 = center1.y + t * (center2.y - center1.y)) := by
  have hred : circleCircleIntersection c1 c2 pts =
      if distance center1 center2 > distance center1 r1p + distance center2 r2p ∨
         distance center1 center2 < |distance center1 r1p - distance center2 r2p| ∨
         distance center1 center2 < 1e-10 then []
      else
        [⟨ccPx center1 r1p center2 r2p + ccOffX center1 r1p center2 r2p,
          ccPy center1 r1p center2 r2p - ccOffY center1 r1p center2 r2p⟩,
         ⟨ccPx center1 r1p center2 r2p - ccOffX center1 r1p center2 r2p,
          ccPy center1 r1p center2 r2p + ccOffY center1 r1p center2 r2p⟩] := by
    rw [circleCircleIntersection, h1, h2, h3, h4]
  constructor
  · by_cases hc : distance center1 center2 >
        distance center1 r1p + distance center2 r2p ∨
        distance center1 center2 < |distance center1 r1p - distance center2 r2p| ∨
        distance center1 center2 < 1e-10
    · rw [hred, if_pos hc]
      simp [hc]
    · rw [hred, if_neg hc]
      simp [hc]
  · intro hn
    have hn' := hn
    push_neg at hn
    obtain ⟨hle, habs, heps⟩ := hn
    have hd0 : (0 : ℝ) < distance center1 center2 :=
      lt_of_lt_of_le (by norm_num) heps
    have hdne : distance center1 center2 ≠ 0 := ne_of_gt hd0
    have hr1n : 0 ≤ distance center1 r1p := distance_nonneg _ _
    have hr2n : 0 ≤ distance center2 r2p := distance_nonneg _ _
    have habs1 : distance center1 r1p - distance center2 r2p ≤
        distance center1 center2 := le_trans (le_abs_self _) habs
    have habs2 : distance center2 r2p - distance center1 r1p ≤
        distance center1 center2 := by
      have := abs_le.1 habs
      cases this
      linarith [neg_abs_le (distance center1 r1p - distance center2 r2p)]
    have hA2 : ccA center1 r1p center2 r2p * (2 * distance center1 center2) =
        distance center1 r1p * distance center1 r1p -
        distance center2 r2p * distance center2 r2p +
        distance center1 center2 * distance center1 center2 := by
      rw [ccA]
      exact div_mul_cancel₀ _ (by positivity)
    have hfac : distance center1 r1p * distance center1 r1p -
        ccA center1 r1p center2 r2p * ccA center1 r1p center2 r2p =
        ((distance center2 r2p - distance center1 r1p + distance center1 center2) *
         (distance center2 r2p + distance center1 r1p - distance center1 center2)) *
        ((distance center1 r1p + distance center1 center2 - distance center2 r2p) *
         (distance center1 r1p + distance center1 center2 + distance center2 r2p)) /
        (4 * (distance center1 center2 * distance center1 center2)) := by
      rw [ccA]
      field_simp
      ring
    have hh2 : 0 ≤ distance center1 r1p * distance center1 r1p -
        ccA center1 r1p center2 r2p * ccA center1 r1p center2 r2p := by
      rw [hfac]
      apply div_nonneg
      · apply mul_nonneg
        · apply mul_nonneg <;> linarith
        · apply mul_nonneg <;> linarith
      · positivity
    have hHsq : ccH center1 r1p center2 r2p * ccH center1 r1p center2 r2p =
        distance center1 r1p * distance center1 r1p -
        ccA center1 r1p center2 r2p * ccA center1 r1p center2 r2p := by
      rw [ccH]
      exact Real.mul_self_sqrt hh2
    have hsum : ccA center1 r1p center2 r2p * ccA center1 r1p center2 r2p +
        ccH center1 r1p center2 r2p * ccH center1 r1p center2 r2p =
        distance center1 r1p * distance center1 r1p := by linarith
    have hkey : (center2.x - center1.x) * (center2.x - center1.x) +
        (center2.y - center1.y) * (center2.y - center1.y) =
        distance center1 center2 * distance center1 center2 := by
      have h := distance_mul_self center1 center2
      linear_combination - h
    rw [hred, if_neg hn']
    refine ⟨_, _, rfl, ?_, ?_, ?_, ?_, ?_,
      ⟨ccA center1 r1p center2 r2p / distance center1 center2, ?_, ?_⟩⟩
    · show ipDist ⟨_, _⟩ center1 = _
      simp only [ipDist, ccPx, ccPy, ccOffX, ccOffY]
      exact circleAlg_dist1 center1.x center1.y (center2.x - center1.x)
        (center2.y - center1.y) (ccA center1 r1p center2 r2p)
        (ccH center1 r1p center2 r2p) (distance center1 center2)
        (distance center1 r1p) hdne hkey hsum hr1n
    · show ipDist ⟨_, _⟩ center2 = _
      simp only [ipDist, ccPx, ccPy, ccOffX, ccOffY]
      exact circleAlg_dist2 center1.x center1.y center2.x center2.y
        (ccA center1 r1p center2 r2p) (ccH center1 r1p center2 r2p)
        (distance center1 center2) (distance center1 r1p)
        (distance center2 r2p) hdne hkey hA2 hsum hr2n
    · show ipDist ⟨_, _⟩ center1 = _
      simp only [ipDist, ccPx, ccPy, ccOffX, ccOffY]
      exact circleAlg_dist1' center1.x center1.y (center2.x - center1.x)
        (center2.y - center1.y) (ccA center1 r1p center2 r2p)
        (ccH center1 r1p center2 r2p) (distance center1 center2)
        (distance center1 r1p) hdne hkey hsum hr1n
    · show ipDist ⟨_, _⟩ center2 = _
      simp only [ipDist, ccPx, ccPy, ccOffX, ccOffY]
      exact circleAlg_dist2' center1.x center1.y center2.x center2.y
        (ccA center1 r1p center2 r2p) (ccH center1 r1p center2 r2p)
        (distance center1 center2) (distance center1 r1p)
        (distance center2 r2p) hdne hkey hA2 hsum hr2n
    · simp only [ccPx, ccPy, ccOffX, ccOffY]
      ring
    · simp only [ccPx, ccPy, ccOffX, ccOffY]
      ring
    · simp only [ccPx, ccPy, ccOffX, ccOffY]
      ring

/-- Witness for C3: circles of radius 5 centered at (0,0) and (6,0)
meet in the two points (3, ∓4). -/
theorem circleCircle_spec_witness :
    ∃ q1 q2,
      circleCircleIntersection ⟨"c1", "a", "b"⟩ ⟨"c2", "c", "d"⟩
        [("a", ⟨"a", 0, 0, true, none⟩), ("b", ⟨"b", 5, 0, true, none⟩),
         ("c", ⟨"c", 6, 0, true, none⟩), ("d", ⟨"d", 6, 5, true, none⟩)] = [q1, q2] ∧
      ipDist q1 ⟨"a", 0, 0, true, none⟩ =
        distance ⟨"a", 0, 0, true, none⟩ ⟨"b", 5, 0, true, none⟩ ∧
      ipDist q1 ⟨"c", 6, 0, true, none⟩ =
        distance ⟨"c", 6, 0, true, none⟩ ⟨"d", 6, 5, true, none⟩ ∧
      ipDist q2 ⟨"a", 0, 0, true, none⟩ =
        distance ⟨"a", 0, 0, true, none⟩ ⟨"b", 5, 0, true, none⟩ ∧
      ipDist q2 ⟨"c", 6, 0, true, none⟩ =
        distance ⟨"c", 6, 0, true, none⟩ ⟨"d", 6, 5, true, none⟩ ∧
      (q1.x - q2.x) * ((6 : ℝ) - 0) + (q1.y - q2.y) * ((0 : ℝ) - 0) = 0 ∧
      ∃ t, (q1.x + q2.x) / 2 = 0 + t * ((6 : ℝ) - 0) ∧
           (q1.y + q2.y) / 2 = 0 + t * ((0 : ℝ) - 0) :=
  (circleCircle_spec ⟨"c1", "a", "b"⟩ ⟨"c2", "c", "d"⟩
    [("a", ⟨"a", 0, 0, true, none⟩), ("b", ⟨"b", 5, 0, true, none⟩),
     ("c", ⟨"c", 6, 0, true, none⟩), ("d", ⟨"d", 6, 5, true, none⟩)]
    ⟨"a", 0, 0, true, none⟩ ⟨"b", 5, 0, true, none⟩
    ⟨"c", 6, 0, true, none⟩ ⟨"d", 6, 5, true, none⟩
    rfl rfl rfl rfl).2
    (by
      have h5 : distance ⟨"a", 0, 0, true, none⟩ ⟨"b", 5, 0, true, none⟩ = 5 := by
        apply hypotR_eq_of_sq _ _ _ (by norm_num)
        norm_num
      have h5' : distance ⟨"c", 6, 0, true, none⟩ ⟨"d", 6, 5, true, none⟩ = 5 := by
        apply hypotR_eq_of_sq _ _ _ (by norm_num)
        norm_num
      have h6 : distance ⟨"a", 0, 0, true, none⟩ ⟨"c", 6, 0, true, none⟩ = 6 := by
        apply hypotR_eq_of_sq _ _ _ (by norm_num)
        norm_num
      rw [h5, h5', h6]
      norm_num)

/-! ## Line–circle intersection (C4) -/

theorem sqrt_eq_of_sq (x r : ℝ) (hr : 0 ≤ r) (h : x = r * r) :
    Real.sqrt x = r := by
  rw [h, Real.sqrt_mul_self hr]

theorem lcLen_mul_self (p1 p2 : Point) :
    lcLen p1 p2 * lcLen p1 p2 =
      (p2.x - p1.x) * (p2.x - p1.x) + (p2.y - p1.y) * (p2.y - p1.y) := by
  rw [lcLen]
  exact Real.mul_self_sqrt
    (by nlinarith [mul_self_nonneg (p2.x - p1.x), mul_self_nonneg (p2.y - p1.y)])

theorem lcDistToLine_mul_self (p1 p2 center : Point) :
    lcDistToLine p1 p2 center * lcDistToLine p1 p2 center =
      (center.x - lcClosestX p1 p2 center) ^ 2 +
      (center.y - lcClosestY p1 p2 center) ^ 2 := by
  rw [lcDistToLine]
  exact Real.mul_self_sqrt (by positivity)

theorem lcU_unit (p1 p2 : Point) (hL : lcLen p1 p2 ≠ 0) :
    lcUx p1 p2 * lcUx p1 p2 + lcUy p1 p2 * lcUy p1 p2 = 1 := by
  rw [lcUx, lcUy]
  have h := lcLen_mul_self p1 p2
  field_simp
  linear_combination - h

theorem lcPerp (p1 p2 center : Point) (hL : lcLen p1 p2 ≠ 0) :
    (lcClosestX p1 p2 center - center.x) * lcUx p1 p2 +
    (lcClosestY p1 p2 center - center.y) * lcUy p1 p2 = 0 := by
  have hu := lcU_unit p1 p2 hL
  simp only [lcClosestX, lcClosestY, lcProj]
  linear_combination ((center.x - p1.x) * lcUx p1 p2 +
    (center.y - p1.y) * lcUy p1 p2) * hu

/-- Claim C4 (amended): when the four referenced points exist and the
line's defining segment has length at least `1e-10`, `lineCircleIntersection`
returns: empty when the perpendicular distance `d` from the center to
the infinite line exceeds the radius; exactly two points at
`closest ± halfChord` along the unit direction when `d ≤ radius` and the
half-chord `√(radius² − d²)` exceeds `1e-10`, each at distance exactly
`radius` from the center and on the infinite line through the defining
points; and exactly one tangent point — the projection of the center —
when `d ≤ radius` and the half-chord is at most `1e-10`, whose distance
to the center is within `1e-10` of the radius.  (The code's tangency
test is `halfChord ≤ 1e-10`, not the claim's `|d − radius| < 1e-10`;
see the counterexample.) -/
theorem lineCircle_spec (line : Line) (circle : Circle) (pts : PMap)
    (p1 p2 center radiusPoint : Point)
    (h1 : List.lookup line.p1Id pts = some p1)
    (h2 : List.lookup line.p2Id pts = some p2)
    (h3 : List.lookup circle.centerId pts = some center)
    (h4 : List.lookup circle.radiusPointId pts = some radiusPoint)
    (hlen : ¬ lcLen p1 p2 < 1e-10) :
    (lcDistToLine p1 p2 center > distance center radiusPoint →
      lineCircleIntersection line circle pts = []) ∧
    (¬ lcDistToLine p1 p2 center > distance center radiusPoint →
      lcHalfChord p1 p2 center radiusPoint > 1e-10 →
      ∃ q1 q2, lineCircleIntersection line circle pts = [q1, q2] ∧
        ipDist q1 center = distance center radiusPoint ∧
        ipDist q2 center = distance center radiusPoint ∧
        (q1.x - p1.x) * (p2.y - p1.y) - (q1.y - p1.y) * (p2.x - p1.x) = 0 ∧
        (q2.x - p1.x) * (p2.y - p1.y) - (q2.y - p1.y) * (p2.x - p1.x) = 0) ∧
    (¬ lcDistToLine p1 p2 center > distance center radiusPoint →
      ¬ lcHalfChord p1 p2 center radiusPoint > 1e-10 →
      ∃ q, lineCircleIntersection line circle pts = [q] ∧
        |ipDist q center - distance center radiusPoint| ≤ 1e-10 ∧
        (q.x - p1.x) * (p2.y - p1.y) - (q.y - p1.y) * (p2.x - p1.x) = 0) := by
  have hred : lineCircleIntersection line circle pts =
      if lcLen p1 p2 < 1e-10 then []
      else if lcDistToLine p1 p2 center > distance center radiusPoint then []
      else if lcHalfChord p1 p2 center radiusPoint > 1e-10 then
        [⟨lcClosestX p1 p2 center - lcHalfChord p1 p2 center radiusPoint * lcUx p1 p2,
          lcClosestY p1 p2 center - lcHalfChord p1 p2 center radiusPoint * lcUy p1 p2⟩,
         ⟨lcClosestX p1 p2 center + lcHalfChord p1 p2 center radiusPoint * lcUx p1 p2,
          lcClosestY p1 p2 center + lcHalfChord p1 p2 center radiusPoint * lcUy p1 p2⟩]
      else [⟨lcClosestX p1 p2 center, lcClosestY p1 p2 center⟩] := by
    rw [lineCircleIntersection, h1, h2, h3, h4]
  have hLne : lcLen p1 p2 ≠ 0 := by
    intro h0
    rw [h0] at hlen
    exact hlen (by norm_num)
  have hrn : 0 ≤ distance center radiusPoint := distance_nonneg _ _
  have hdn : 0 ≤ lcDistToLine p1 p2 center := Real.sqrt_nonneg _
  refine ⟨?_, ?_, ?_⟩
  · intro hd
    rw [hred, if_neg hlen, if_pos hd]
  · intro hd hhc
    have hdr : lcDistToLine p1 p2 center ≤ distance center radiusPoint :=
      le_of_not_lt hd
    have hhcsq : lcHalfChord p1 p2 center radiusPoint *
        lcHalfChord p1 p2 center radiusPoint =
        distance center radiusPoint * distance center radiusPoint -
        lcDistToLine p1 p2 center * lcDistToLine p1 p2 center := by
      rw [lcHalfChord]
      exact Real.mul_self_sqrt (by nlinarith)
    have hu := lcU_unit p1 p2 hLne
    have hperp := lcPerp p1 p2 center hLne
    have hdd := lcDistToLine_mul_self p1 p2 center
    rw [hred, if_neg hlen, if_neg hd, if_pos hhc]
    refine ⟨_, _, rfl, ?_, ?_, ?_, ?_⟩
    · apply hypotR_eq_of_sq _ _ _ hrn
      linear_combination (-(2 * lcHalfChord p1 p2 center radiusPoint)) * hperp +
        (lcHalfChord p1 p2 center radiusPoint *
          lcHalfChord p1 p2 center radiusPoint) * hu + hhcsq - hdd
    · apply hypotR_eq_of_sq _ _ _ hrn
      linear_combination (2 * lcHalfChord p1 p2 center radiusPoint) * hperp +
        (lcHalfChord p1 p2 center radiusPoint *
          lcHalfChord p1 p2 center radiusPoint) * hu + hhcsq - hdd
    · simp only [lcClosestX, lcClosestY, lcUx, lcUy]
      ring
    · simp only [lcClosestX, lcClosestY, lcUx, lcUy]
      ring
  · intro hd hhc
    have hdr : lcDistToLine p1 p2 center ≤ distance center radiusPoint :=
      le_of_not_lt hd
    have hhcn : 0 ≤ lcHalfChord p1 p2 center radiusPoint := Real.sqrt_nonneg _
    have hhcle : lcHalfChord p1 p2 center radiusPoint ≤ 1e-10 := le_of_not_lt hhc
    have hhcsq : lcHalfChord p1 p2 center radiusPoint *
        lcHalfChord p1 p2 center radiusPoint =
        distance center radiusPoint * distance center radiusPoint -
        lcDistToLine p1 p2 center * lcDistToLine p1 p2 center := by
      rw [lcHalfChord]
      exact Real.mul_self_sqrt (by nlinarith)
    rw [hred, if_neg hlen, if_neg hd, if_neg hhc]
    have hipd : ipDist ⟨lcClosestX p1 p2 center, lcClosestY p1 p2 center⟩ center =
        lcDistToLine p1 p2 center := by
      rw [ipDist, hypotR, lcDistToLine]
      congr 1
      ring
    refine ⟨_, rfl, ?_, ?_⟩
    · rw [hipd, abs_le]
      constructor
      · have hgap : distance center radiusPoint - lcDistToLine p1 p2 center ≤
            lcHalfChord p1 p2 center radiusPoint := by
          nlinarith
        linarith
      · linarith
    · simp only [lcClosestX, lcClosestY, lcUx, lcUy]
      ring

/-- Counterexample to C4 as stated: a line at distance `d = 1` from the
center of a circle of radius `1 + 5·10⁻¹¹` satisfies the claim's
tangency condition `|d − radius| < 1e-10`, yet the code's test
`halfChord > 1e-10` holds (halfChord ≈ 10⁻⁵), so *two* intersection
points are returned instead of the claimed single tangent point. -/
theorem lineCircle_tangent_cex :
    (lineCircleIntersection ⟨"L", "p", "q", true⟩ ⟨"O", "c", "r"⟩
      [("p", ⟨"p", 0, 1, true, none⟩), ("q", ⟨"q", 1, 1, true, none⟩),
       ("c", ⟨"c", 0, 0, true, none⟩),
       ("r", ⟨"r", 1 + 5e-11, 0, true, none⟩)]).length = 2 ∧
    |lcDistToLine ⟨"p", 0, 1, true, none⟩ ⟨"q", 1, 1, true, none⟩
        ⟨"c", 0, 0, true, none⟩ -
      distance ⟨"c", 0, 0, true, none⟩ ⟨"r", 1 + 5e-11, 0, true, none⟩| < 1e-10 := by
  have hrad : distance ⟨"c", 0, 0, true, none⟩ ⟨"r", 1 + 5e-11, 0, true, none⟩ =
      1 + 5e-11 := by
    apply hypotR_eq_of_sq _ _ _ (by norm_num)
    norm_num
  have hlen : lcLen ⟨"p", 0, 1, true, none⟩ ⟨"q", 1, 1, true, none⟩ = 1 := by
    rw [lcLen]
    exact sqrt_eq_of_sq _ 1 (by norm_num) (by norm_num)
  have hdist : lcDistToLine ⟨"p", 0, 1, true, none⟩ ⟨"q", 1, 1, true, none⟩
      ⟨"c", 0, 0, true, none⟩ = 1 := by
    rw [lcDistToLine]
    apply sqrt_eq_of_sq _ 1 (by norm_num)
    simp only [lcClosestX, lcClosestY, lcProj, lcUx, lcUy, hlen]
    norm_num
  have hhc : lcHalfChord ⟨"p", 0, 1, true, none⟩ ⟨"q", 1, 1, true, none⟩
      ⟨"c", 0, 0, true, none⟩ ⟨"r", 1 + 5e-11, 0, true, none⟩ > 1e-10 := by
    rw [lcHalfChord, hdist, hrad]
    rw [show (1 + 5e-11 : ℝ) * (1 + 5e-11) - 1 * 1 = 1.000000000025e-10 by norm_num]
    have h := Real.sqrt_lt_sqrt (by norm_num : (0:ℝ) ≤ 1e-20)
      (by norm_num : (1e-20:ℝ) < 1.000000000025e-10)
    calc (1e-10 : ℝ) = Real.sqrt 1e-20 := by
          rw [sqrt_eq_of_sq 1e-20 1e-10 (by norm_num) (by norm_num)]
      _ < Real.sqrt 1.000000000025e-10 := h
  constructor
  · have hred : lineCircleIntersection ⟨"L", "p", "q", true⟩ ⟨"O", "c", "r"⟩
        [("p", ⟨"p", 0, 1, true, none⟩), ("q", ⟨"q", 1, 1, true, none⟩),
         ("c", ⟨"c", 0, 0, true, none⟩),
         ("r", ⟨"r", 1 + 5e-11, 0, true, none⟩)] =
        if lcLen ⟨"p", 0, 1, true, none⟩ ⟨"q", 1, 1, true, none⟩ < 1e-10 then []
        else if lcDistToLine ⟨"p", 0, 1, true, none⟩ ⟨"q", 1, 1, true, none⟩
            ⟨"c", 0, 0, true, none⟩ >
            distance ⟨"c", 0, 0, true, none⟩ ⟨"r", 1 + 5e-11, 0, true, none⟩ then []
        else if lcHalfChord ⟨"p", 0, 1, true, none⟩ ⟨"q", 1, 1, true, none⟩
            ⟨"c", 0, 0, true, none⟩ ⟨"r", 1 + 5e-11, 0, true, none⟩ > 1e-10 then
          [⟨lcClosestX ⟨"p", 0, 1, true, none⟩ ⟨"q", 1, 1, true, none⟩
              ⟨"c", 0, 0, true, none⟩ -
            lcHalfChord ⟨"p", 0, 1, true, none⟩ ⟨"q", 1, 1, true, none⟩
              ⟨"c", 0, 0, true, none⟩ ⟨"r", 1 + 5e-11, 0, true, none⟩ *
            lcUx ⟨"p", 0, 1, true, none⟩ ⟨"q", 1, 1, true, none⟩,
            lcClosestY ⟨"p", 0, 1, true, none⟩ ⟨"q", 1, 1, true, none⟩
              ⟨"c", 0, 0, true, none⟩ -
            lcHalfChord ⟨"p", 0, 1, true, none⟩ ⟨"q", 1, 1, true, none⟩
              ⟨"c", 0, 0, true, none⟩ ⟨"r", 1 + 5e-11, 0, true, none⟩ *
            lcUy ⟨"p", 0, 1, true, none⟩ ⟨"q", 1, 1, true, none⟩⟩,
           ⟨lcClosestX ⟨"p", 0, 1, true, none⟩ ⟨"q", 1, 1, true, none⟩
              ⟨"c", 0, 0, true, none⟩ +
            lcHalfChord ⟨"p", 0, 1, true, none⟩ ⟨"q", 1, 1, true, none⟩
              ⟨"c", 0, 0, true, none⟩ ⟨"r", 1 + 5e-11, 0, true, none⟩ *
            lcUx ⟨"p", 0, 1, true, none⟩ ⟨"q", 1, 1, true, none⟩,
            lcClosestY ⟨"p", 0, 1, true, none⟩ ⟨"q", 1, 1, true, none⟩
              ⟨"c", 0, 0, true, none⟩ +
            lcHalfChord ⟨"p", 0, 1, true, none⟩ ⟨"q", 1, 1, true, none⟩
              ⟨"c", 0, 0, true, none⟩ ⟨"r", 1 + 5e-11, 0, true, none⟩ *
            lcUy ⟨"p", 0, 1, true, none⟩ ⟨"q", 1, 1, true, none⟩⟩]
        else [⟨lcClosestX ⟨"p", 0, 1, true, none⟩ ⟨"q", 1, 1, true, none⟩
                ⟨"c", 0, 0, true, none⟩,
               lcClosestY ⟨"p", 0, 1, true, none⟩ ⟨"q", 1, 1, true, none⟩
                ⟨"c", 0, 0, true, none⟩⟩] := rfl
    rw [hred, if_neg (by rw [hlen]; norm_num),
      if_neg (by rw [hdist, hrad]; norm_num), if_pos hhc]
    rfl
  · rw [hdist, hrad]
    rw [show (1 : ℝ) - (1 + 5e-11) = -5e-11 by ring, abs_neg,
      abs_of_nonneg (by norm_num : (0:ℝ) ≤ 5e-11)]
    norm_num

/-- Witness for the amended C4: the vertical line x = 3 meets the circle
of radius 5 about the origin in two points at distance exactly 5 from
the center, both on the line. -/
theorem lineCircle_spec_witness :
    ∃ q1 q2,
      lineCircleIntersection ⟨"L", "p", "q", true⟩ ⟨"O", "c", "r"⟩
        [("p", ⟨"p", 3, -1, true, none⟩), ("q", ⟨"q", 3, 1, true, none⟩),
         ("c", ⟨"c", 0, 0, true, none⟩), ("r", ⟨"r", 5, 0, true, none⟩)] = [q1, q2] ∧
      ipDist q1 ⟨"c", 0, 0, true, none⟩ =
        distance ⟨"c", 0, 0, true, none⟩ ⟨"r", 5, 0, true, none⟩ ∧
      ipDist q2 ⟨"c", 0, 0, true, none⟩ =
        distance ⟨"c", 0, 0, true, none⟩ ⟨"r", 5, 0, true, none⟩ ∧
      (q1.x - (3:ℝ)) * ((1:ℝ) - -1) - (q1.y - (-1:ℝ)) * ((3:ℝ) - 3) = 0 ∧
      (q2.x - (3:ℝ)) * ((1:ℝ) - -1) - (q2.y - (-1:ℝ)) * ((3:ℝ) - 3) = 0 := by
  have hlen : lcLen ⟨"p", 3, -1, true, none⟩ ⟨"q", 3, 1, true, none⟩ = 2 := by
    rw [lcLen]
    exact sqrt_eq_of_sq _ 2 (by norm_num) (by norm_num)
  have hrad : distance ⟨"c", 0, 0, true, none⟩ ⟨"r", 5, 0, true, none⟩ = 5 := by
    apply hypotR_eq_of_sq _ _ _ (by norm_num)
    norm_num
  have hdist : lcDistToLine ⟨"p", 3, -1, true, none⟩ ⟨"q", 3, 1, true, none⟩
      ⟨"c", 0, 0, true, none⟩ = 3 := by
    rw [lcDistToLine]
    apply sqrt_eq_of_sq _ 3 (by norm_num)
    simp only [lcClosestX, lcClosestY, lcProj, lcUx, lcUy, hlen]
    norm_num
  have hhc : lcHalfChord ⟨"p", 3, -1, true, none⟩ ⟨"q", 3, 1, true, none⟩
      ⟨"c", 0, 0, true, none⟩ ⟨"r", 5, 0, true, none⟩ = 4 := by
    rw [lcHalfChord, hdist, hrad]
    exact sqrt_eq_of_sq _ 4 (by norm_num) (by norm_num)
  exact (lineCircle_spec ⟨"L", "p", "q", true⟩ ⟨"O", "c", "r"⟩
    [("p", ⟨"p", 3, -1, true, none⟩), ("q", ⟨"q", 3, 1, true, none⟩),
     ("c", ⟨"c", 0, 0, true, none⟩), ("r", ⟨"r", 5, 0, true, none⟩)]
    ⟨"p", 3, -1, true, none⟩ ⟨"q", 3, 1, true, none⟩
    ⟨"c", 0, 0, true, none⟩ ⟨"r", 5, 0, true, none⟩
    rfl rfl rfl rfl (by rw [hlen]; norm_num)).2.1
    (by rw [hdist, hrad]; norm_num) (by rw [hhc]; norm_num)

/-! ## Snap resolver (C7) -/

/-- Claim C7 (amended): given a cursor position in drawing-space units,
the snap resolver returns no target exactly when no existing point lies
within `SNAP_RADIUS / zoom` of the cursor, and otherwise returns the
position of the *first* point in element order whose distance is below
that radius — not necessarily the nearest one (see the counterexample). -/
theorem findSnapTarget_spec (mouse : Vec2) (points : List Point) (zoom : ℝ) :
    (findSnapTarget mouse points zoom = none ↔
      ∀ p ∈ points,
        ¬ hypotR (p.x - mouse.x) (p.y - mouse.y) < SNAP_RADIUS / zoom) ∧
    (∀ t, findSnapTarget mouse points zoom = some t →
      ∃ l1 p l2, points = l1 ++ p :: l2 ∧
        (∀ q ∈ l1, ¬ hypotR (q.x - mouse.x) (q.y - mouse.y) < SNAP_RADIUS / zoom) ∧
        hypotR (p.x - mouse.x) (p.y - mouse.y) < SNAP_RADIUS / zoom ∧
        t = ⟨p.x, p.y⟩) := by
  induction points with
  | nil =>
    refine ⟨by simp [findSnapTarget], ?_⟩
    intro t ht
    simp [findSnapTarget] at ht
  | cons p rest ih =>
    constructor
    · by_cases hd : hypotR (p.x - mouse.x) (p.y - mouse.y) < SNAP_RADIUS / zoom
      · rw [findSnapTarget, if_pos hd]
        simp [hd]
      · rw [findSnapTarget, if_neg hd]
        rw [ih.1]
        simp only [List.forall_mem_cons, hd, not_false_iff, true_and, not_lt]
        exact (and_iff_right (le_of_not_lt hd)).symm
    · intro t ht
      by_cases hd : hypotR (p.x - mouse.x) (p.y - mouse.y) < SNAP_RADIUS / zoom
      · rw [findSnapTarget, if_pos hd] at ht
        exact ⟨[], p, rest, rfl, by simp, hd, (Option.some.inj ht).symm⟩
      · rw [findSnapTarget, if_neg hd] at ht
        obtain ⟨l1, q, l2, heq, hall, hq, hteq⟩ := ih.2 t ht
        refine ⟨p :: l1, q, l2, by rw [heq, List.cons_append], ?_, hq, hteq⟩
        intro x hx
        rcases List.mem_cons.1 hx with hxp | hxl
        · rw [hxp]
          exact hd
        · exact hall x hxl

/-- Witness for the amended C7: a single point at (3,4), cursor at the
origin, zoom 1 — distance 5 < 15, so the snap resolver returns it as
the first in-radius point. -/
theorem findSnapTarget_spec_witness :
    ∃ l1 p l2,
      [(⟨"a", 3, 4, true, none⟩ : Point)] = l1 ++ p :: l2 ∧
      (∀ q ∈ l1, ¬ hypotR (q.x - (0:ℝ)) (q.y - (0:ℝ)) < SNAP_RADIUS / 1) ∧
      hypotR (p.x - (0:ℝ)) (p.y - (0:ℝ)) < SNAP_RADIUS / 1 ∧
      (⟨3, 4⟩ : Vec2) = ⟨p.x, p.y⟩ :=
  (findSnapTarget_spec ⟨0, 0⟩ [⟨"a", 3, 4, true, none⟩] 1).2 ⟨3, 4⟩
    (by
      have h5 : hypotR ((3:ℝ) - 0) ((4:ℝ) - 0) = 5 :=
        hypotR_eq_of_sq _ _ 5 (by norm_num) (by norm_num)
      rw [findSnapTarget, if_pos (by rw [h5, SNAP_RADIUS]; norm_num)])

/-- Counterexample to C7 as stated: with the cursor at the origin, a
point at distance 10 listed before a point at distance 0 (both within
the radius 15), the snap resolver returns the *first* point (10,0), not
the nearest one (0,0). -/
theorem findSnapTarget_nearest_cex :
    findSnapTarget ⟨0, 0⟩
      [⟨"a", 10, 0, true, none⟩, ⟨"b", 0, 0, true, none⟩] 1 = some ⟨10, 0⟩ ∧
    hypotR ((0:ℝ) - 0) ((0:ℝ) - 0) < hypotR ((10:ℝ) - 0) ((0:ℝ) - 0) ∧
    hypotR ((0:ℝ) - 0) ((0:ℝ) - 0) < SNAP_RADIUS / 1 := by
  have h10 : hypotR ((10:ℝ) - 0) ((0:ℝ) - 0) = 10 :=
    hypotR_eq_of_sq _ _ 10 (by norm_num) (by norm_num)
  have h0 : hypotR ((0:ℝ) - 0) ((0:ℝ) - 0) = 0 :=
    hypotR_eq_of_sq _ _ 0 (by norm_num) (by norm_num)
  refine ⟨?_, ?_, ?_⟩
  · rw [findSnapTarget, if_pos (by rw [h10, SNAP_RADIUS]; norm_num)]
  · rw [h10, h0]
    norm_num
  · rw [h0, SNAP_RADIUS]
    norm_num

/-! ## Perpendicular-line direction resolution (C6) -/

theorem gplLineRef (pl : PerpendicularLine) (pts : PMap) (es : List GeoElement)
    (point : Point) (refL : Line) (q1 q2 : Point)
    (hpt : List.lookup pl.pointId pts = some point)
    (hfind : es.find? (fun e => e.id == pl.referenceLineId) = some (.line refL))
    (hq1 : List.lookup refL.p1Id pts = some q1)
    (hq2 : List.lookup refL.p2Id pts = some q2)
    (hlen : ¬ Real.sqrt ((q2.x - q1.x) * (q2.x - q1.x) +
        (q2.y - q1.y) * (q2.y - q1.y)) < 1e-10) :
    getPerpLinePoints pl pts es = some
      (⟨"", point.x - (-(q2.y - q1.y) / Real.sqrt ((q2.x - q1.x) * (q2.x - q1.x) +
          (q2.y - q1.y) * (q2.y - q1.y))) * 10000,
        point.y - ((q2.x - q1.x) / Real.sqrt ((q2.x - q1.x) * (q2.x - q1.x) +
          (q2.y - q1.y) * (q2.y - q1.y))) * 10000, false, none⟩,
       ⟨"", point.x + (-(q2.y - q1.y) / Real.sqrt ((q2.x - q1.x) * (q2.x - q1.x) +
          (q2.y - q1.y) * (q2.y - q1.y))) * 10000,
        point.y + ((q2.x - q1.x) / Real.sqrt ((q2.x - q1.x) * (q2.x - q1.x) +
          (q2.y - q1.y) * (q2.y - q1.y))) * 10000, false, none⟩) := by
  have hrp : gplRefPoints (.line refL) pts es = some (q1, q2) := by
    rw [gplRefPoints, hq1, hq2]
  rw [getPerpLinePoints, hpt, hfind]
  dsimp only
  rw [hrp]
  dsimp only
  rw [if_neg hlen]
  simp [isPBis]

theorem gplBisRef (pl : PerpendicularLine) (pts : PMap) (es : List GeoElement)
    (point : Point) (refB : PerpendicularBisector) (s1 s2 : Point)
    (hpt : List.lookup pl.pointId pts = some point)
    (hfind : es.find? (fun e => e.id == pl.referenceLineId) = some (.pbis refB))
    (hs1 : List.lookup refB.p1Id pts = some s1)
    (hs2 : List.lookup refB.p2Id pts = some s2)
    (hlen : ¬ Real.sqrt ((s2.x - s1.x) * (s2.x - s1.x) +
        (s2.y - s1.y) * (s2.y - s1.y)) < 1e-10) :
    getPerpLinePoints pl pts es = some
      (⟨"", point.x - (-(s2.x - s1.x) / hypotR (-(s2.y - s1.y)) (s2.x - s1.x)) * 10000,
        point.y - (-(s2.y - s1.y) / hypotR (-(s2.y - s1.y)) (s2.x - s1.x)) * 10000,
        false, none⟩,
       ⟨"", point.x + (-(s2.x - s1.x) / hypotR (-(s2.y - s1.y)) (s2.x - s1.x)) * 10000,
        point.y + (-(s2.y - s1.y) / hypotR (-(s2.y - s1.y)) (s2.x - s1.x)) * 10000,
        false, none⟩) := by
  have hrp : gplRefPoints (.pbis refB) pts es = some (s1, s2) := by
    rw [gplRefPoints, hs1, hs2]
  rw [getPerpLinePoints, hpt, hfind]
  dsimp only
  rw [hrp]
  dsimp only
  rw [if_neg hlen]
  simp [isPBis]

theorem gplNestedLineRef (pl : PerpendicularLine) (pts : PMap)
    (es : List GeoElement) (point : Point) (pl2 : PerpendicularLine)
    (refPoint : Point) (baseL : Line) (q1 q2 : Point)
    (hpt : List.lookup pl.pointId pts = some point)
    (hfind : es.find? (fun e => e.id == pl.referenceLineId) = some (.pline pl2))
    (hpt2 : List.lookup pl2.pointId pts = some refPoint)
    (hfind2 : es.find? (fun e => e.id == pl2.referenceLineId) = some (.line baseL))
    (hq1 : List.lookup baseL.p1Id pts = some q1)
    (hq2 : List.lookup baseL.p2Id pts = some q2)
    (hlen : ¬ Real.sqrt ((q2.x - q1.x) * (q2.x - q1.x) +
        (q2.y - q1.y) * (q2.y - q1.y)) < 1e-10) :
    getPerpLinePoints pl pts es = some
      (⟨"", point.x - (-(q2.y - q1.y) / Real.sqrt ((q2.x - q1.x) * (q2.x - q1.x) +
          (q2.y - q1.y) * (q2.y - q1.y))) * 10000,
        point.y - ((q2.x - q1.x) / Real.sqrt ((q2.x - q1.x) * (q2.x - q1.x) +
          (q2.y - q1.y) * (q2.y - q1.y))) * 10000, false, none⟩,
       ⟨"", point.x + (-(q2.y - q1.y) / Real.sqrt ((q2.x - q1.x) * (q2.x - q1.x) +
          (q2.y - q1.y) * (q2.y - q1.y))) * 10000,
        point.y + ((q2.x - q1.x) / Real.sqrt ((q2.x - q1.x) * (q2.x - q1.x) +
          (q2.y - q1.y) * (q2.y - q1.y))) * 10000, false, none⟩) := by
  have hrp : gplRefPoints (.pline pl2) pts es = some (q1, q2) := by
    rw [gplRefPoints, hpt2]
    dsimp only
    rw [hfind2]
    dsimp only
    rw [hq1, hq2]
  rw [getPerpLinePoints, hpt, hfind]
  dsimp only
  rw [hrp]
  dsimp only
  rw [if_neg hlen]
  simp [isPBis]

theorem gplNestedBisRef (pl : PerpendicularLine) (pts : PMap)
    (es : List GeoElement) (point : Point) (pl2 : PerpendicularLine)
    (refPoint : Point) (baseB : PerpendicularBisector) (s1 s2 : Point)
    (hpt : List.lookup pl.pointId pts = some point)
    (hfind : es.find? (fun e => e.id == pl.referenceLineId) = some (.pline pl2))
    (hpt2 : List.lookup pl2.pointId pts = some refPoint)
    (hfind2 : es.find? (fun e => e.id == pl2.referenceLineId) = some (.pbis baseB))
    (hs1 : List.lookup baseB.p1Id pts = some s1)
    (hs2 : List.lookup baseB.p2Id pts = some s2)
    (hlen : ¬ Real.sqrt ((s2.x - s1.x) * (s2.x - s1.x) +
        (s2.y - s1.y) * (s2.y - s1.y)) < 1e-10) :
    getPerpLinePoints pl pts es = some
      (⟨"", point.x - (-(s2.y - s1.y) / Real.sqrt ((s2.x - s1.x) * (s2.x - s1.x) +
          (s2.y - s1.y) * (s2.y - s1.y))) * 10000,
        point.y - ((s2.x - s1.x) / Real.sqrt ((s2.x - s1.x) * (s2.x - s1.x) +
          (s2.y - s1.y) * (s2.y - s1.y))) * 10000, false, none⟩,
       ⟨"", point.x + (-(s2.y - s1.y) / Real.sqrt ((s2.x - s1.x) * (s2.x - s1.x) +
          (s2.y - s1.y) * (s2.y - s1.y))) * 10000,
        point.y + ((s2.x - s1.x) / Real.sqrt ((s2.x - s1.x) * (s2.x - s1.x) +
          (s2.y - s1.y) * (s2.y - s1.y))) * 10000, false, none⟩) := by
  have hrp : gplRefPoints (.pline pl2) pts es = some (s1, s2) := by
    rw [gplRefPoints, hpt2]
    dsimp only
    rw [hfind2]
    dsimp only
    rw [hs1, hs2]
  rw [getPerpLinePoints, hpt, hfind]
  dsimp only
  rw [hrp]
  dsimp only
  rw [if_neg hlen]
  simp [isPBis]

theorem gplDeepChain (pl : PerpendicularLine) (pts : PMap)
    (es : List GeoElement) (pl2 pl3 : PerpendicularLine)
    (hfind : es.find? (fun e => e.id == pl.referenceLineId) = some (.pline pl2))
    (hfind2 : es.find? (fun e => e.id == pl2.referenceLineId) = some (.pline pl3)) :
    getPerpLinePoints pl pts es = none := by
  rw [getPerpLinePoints]
  cases hpt : List.lookup pl.pointId pts with
  | none => rfl
  | some point =>
    rw [hfind]
    have hrp : gplRefPoints (.pline pl2) pts es = none := by
      rw [gplRefPoints]
      cases hpt2 : List.lookup pl2.pointId pts with
      | none => rfl
      | some refPoint =>
        dsimp only
        rw [hfind2]
    dsimp only
    rw [hrp]

theorem findIntersections_pline_none (pl : PerpendicularLine) (pts : PMap)
    (es : List GeoElement) (h : getPerpLinePoints pl pts es = none)
    (other : GeoElement) :
    findIntersections (.pline pl) other pts es = [] ∧
    findIntersections other (.pline pl) pts es = [] := by
  cases other with
  | point p => exact ⟨rfl, rfl⟩
  | line l =>
    constructor <;>
      · show linePerpLineIntersection l pl pts es = []
        rw [linePerpLineIntersection, h]
  | circle c =>
    constructor <;>
      · show circlePerpLineIntersection c pl pts es = []
        rw [circlePerpLineIntersection, h]
  | pbis b =>
    constructor <;>
      · show bisectorPerpLineIntersection b pl pts es = []
        rw [bisectorPerpLineIntersection, h]
        cases getBisectorLinePoints b pts <;> rfl
  | pline pl' =>
    constructor
    · show perpLinePerpLineIntersection pl pl' pts es = []
      rw [perpLinePerpLineIntersection, h]
    · show perpLinePerpLineIntersection pl' pl pts es = []
      rw [perpLinePerpLineIntersection, h]
      cases getPerpLinePoints pl' pts es <;> rfl

/-- Claim C6 (amended): the infinite line derived for a
`PerpendicularLine` has these directions.  (1) When the reference is a
`Line`, the direction is the 90°-rotation of that line's direction, as
claimed.  (2) When the reference is a `PerpendicularBisector` over a
segment `s1s2`, the direction is the 90°-rotation of the bisector's own
line direction `(-(s2.y-s1.y), s2.x-s1.x)`, i.e. `-(s2-s1)` normalized —
again as claimed.  (3) When the reference is itself a
`PerpendicularLine` over a base `Line`, the code resolves one level deep
but rotates the *base* direction only once, so the derived direction is
the 90°-rotation of the base line's direction — *parallel to the
referenced perpendicular line and perpendicular to the base line*, not
parallel to the base line as originally claimed (see the
counterexample).  (4) When the reference is a `PerpendicularLine` over a
base `PerpendicularBisector`, the single rotation of the base segment
direction yields the direction `(-(s2.y-s1.y), s2.x-s1.x)` — parallel to
the base bisector's line, which coincides (up to orientation) with the
claimed 90°-rotation of the referenced perpendicular line's direction,
so this nested case matches the claim.  (5) A chain of two nested
`PerpendicularLine` references yields no derivable direction, and every
`findIntersections` query involving that element returns the empty
list. -/
theorem perpLine_resolution_spec (pl : PerpendicularLine) (pts : PMap)
    (es : List GeoElement) :
    (∀ point refL q1 q2,
      List.lookup pl.pointId pts = some point →
      es.find? (fun e => e.id == pl.referenceLineId) = some (.line refL) →
      List.lookup refL.p1Id pts = some q1 →
      List.lookup refL.p2Id pts = some q2 →
      ¬ Real.sqrt ((q2.x - q1.x) * (q2.x - q1.x) +
          (q2.y - q1.y) * (q2.y - q1.y)) < 1e-10 →
      getPerpLinePoints pl pts es = some
        (⟨"", point.x - (-(q2.y - q1.y) / Real.sqrt ((q2.x - q1.x) * (q2.x - q1.x) +
            (q2.y - q1.y) * (q2.y - q1.y))) * 10000,
          point.y - ((q2.x - q1.x) / Real.sqrt ((q2.x - q1.x) * (q2.x - q1.x) +
            (q2.y - q1.y) * (q2.y - q1.y))) * 10000, false, none⟩,
         ⟨"", point.x + (-(q2.y - q1.y) / Real.sqrt ((q2.x - q1.x) * (q2.x - q1.x) +
            (q2.y - q1.y) * (q2.y - q1.y))) * 10000,
          point.y + ((q2.x - q1.x) / Real.sqrt ((q2.x - q1.x) * (q2.x - q1.x) +
            (q2.y - q1.y) * (q2.y - q1.y))) * 10000, false, none⟩)) ∧
    (∀ point refB s1 s2,
      List.lookup pl.pointId pts = some point →
      es.find? (fun e => e.id == pl.referenceLineId) = some (.pbis refB) →
      List.lookup refB.p1Id pts = some s1 →
      List.lookup refB.p2Id pts = some s2 →
      ¬ Real.sqrt ((s2.x - s1.x) * (s2.x - s1.x) +
          (s2.y - s1.y) * (s2.y - s1.y)) < 1e-10 →
      getPerpLinePoints pl pts es = some
        (⟨"", point.x -
            (-(s2.x - s1.x) / hypotR (-(s2.y - s1.y)) (s2.x - s1.x)) * 10000,
          point.y -
            (-(s2.y - s1.y) / hypotR (-(s2.y - s1.y)) (s2.x - s1.x)) * 10000,
          false, none⟩,
         ⟨"", point.x +
            (-(s2.x - s1.x) / hypotR (-(s2.y - s1.y)) (s2.x - s1.x)) * 10000,
          point.y +
            (-(s2.y - s1.y) / hypotR (-(s2.y - s1.y)) (s2.x - s1.x)) * 10000,
          false, none⟩)) ∧
    (∀ point pl2 refPoint baseL q1 q2,
      List.lookup pl.pointId pts = some point →
      es.find? (fun e => e.id == pl.referenceLineId) = some (.pline pl2) →
      List.lookup pl2.pointId pts = some refPoint →
      es.find? (fun e => e.id == pl2.referenceLineId) = some (.line baseL) →
      List.lookup baseL.p1Id pts = some q1 →
      List.lookup baseL.p2Id pts = some q2 →
      ¬ Real.sqrt ((q2.x - q1.x) * (q2.x - q1.x) +
          (q2.y - q1.y) * (q2.y - q1.y)) < 1e-10 →
      getPerpLinePoints pl pts es = some
        (⟨"", point.x - (-(q2.y - q1.y) / Real.sqrt ((q2.x - q1.x) * (q2.x - q1.x) +
            (q2.y - q1.y) * (q2.y - q1.y))) * 10000,
          point.y - ((q2.x - q1.x) / Real.sqrt ((q2.x - q1.x) * (q2.x - q1.x) +
            (q2.y - q1.y) * (q2.y - q1.y))) * 10000, false, none⟩,
         ⟨"", point.x + (-(q2.y - q1.y) / Real.sqrt ((q2.x - q1.x) * (q2.x - q1.x) +
            (q2.y - q1.y) * (q2.y - q1.y))) * 10000,
          point.y + ((q2.x - q1.x) / Real.sqrt ((q2.x - q1.x) * (q2.x - q1.x) +
            (q2.y - q1.y) * (q2.y - q1.y))) * 10000, false, none⟩)) ∧
    (∀ point pl2 refPoint baseB s1 s2,
      List.lookup pl.pointId pts = some point →
      es.find? (fun e => e.id == pl.referenceLineId) = some (.pline pl2) →
      List.lookup pl2.pointId pts = some refPoint →
      es.find? (fun e => e.id == pl2.referenceLineId) = some (.pbis baseB) →
      List.lookup baseB.p1Id pts = some s1 →
      List.lookup baseB.p2Id pts = some s2 →
      ¬ Real.sqrt ((s2.x - s1.x) * (s2.x - s1.x) +
          (s2.y - s1.y) * (s2.y - s1.y)) < 1e-10 →
      getPerpLinePoints pl pts es = some
        (⟨"", point.x - (-(s2.y - s1.y) / Real.sqrt ((s2.x - s1.x) * (s2.x - s1.x) +
            (s2.y - s1.y) * (s2.y - s1.y))) * 10000,
          point.y - ((s2.x - s1.x) / Real.sqrt ((s2.x - s1.x) * (s2.x - s1.x) +
            (s2.y - s1.y) * (s2.y - s1.y))) * 10000, false, none⟩,
         ⟨"", point.x + (-(s2.y - s1.y) / Real.sqrt ((s2.x - s1.x) * (s2.x - s1.x) +
            (s2.y - s1.y) * (s2.y - s1.y))) * 10000,
          point.y + ((s2.x - s1.x) / Real.sqrt ((s2.x - s1.x) * (s2.x - s1.x) +
            (s2.y - s1.y) * (s2.y - s1.y))) * 10000, false, none⟩)) ∧
    (∀ pl2 pl3,
      es.find? (fun e => e.id == pl.referenceLineId) = some (.pline pl2) →
      es.find? (fun e => e.id == pl2.referenceLineId) = some (.pline pl3) →
      getPerpLinePoints pl pts es = none ∧
      ∀ other, findIntersections (.pline pl) other pts es = [] ∧
               findIntersections other (.pline pl) pts es = []) := by
  refine ⟨?_, ?_, ?_, ?_, ?_⟩
  · intro point refL q1 q2 hpt hfind hq1 hq2 hlen
    exact gplLineRef pl pts es point refL q1 q2 hpt hfind hq1 hq2 hlen
  · intro point refB s1 s2 hpt hfind hs1 hs2 hlen
    exact gplBisRef pl pts es point refB s1 s2 hpt hfind hs1 hs2 hlen
  · intro point pl2 refPoint baseL q1 q2 hpt hfind hpt2 hfind2 hq1 hq2 hlen
    exact gplNestedLineRef pl pts es point pl2 refPoint baseL q1 q2
      hpt hfind hpt2 hfind2 hq1 hq2 hlen
  · intro point pl2 refPoint baseB s1 s2 hpt hfind hpt2 hfind2 hs1 hs2 hlen
    exact gplNestedBisRef pl pts es point pl2 refPoint baseB s1 s2
      hpt hfind hpt2 hfind2 hs1 hs2 hlen
  · intro pl2 pl3 hfind hfind2
    have hnone := gplDeepChain pl pts es pl2 pl3 hfind hfind2
    exact ⟨hnone, fun other => findIntersections_pline_none pl pts es hnone other⟩

/-- Counterexample to C6 as stated: with base line L through A=(0,0),
B=(1,0), P1 ⟂ L, and P2 ⟂ P1, the claim makes P2's derived direction
the 90°-rotation of P1's direction, i.e. parallel to L.  The code
instead produces the sample pair (0,−10000)–(0,10000): direction
(0, 20000), which is *perpendicular* to L's direction (1,0) (their
cross product is −20000 ≠ 0) and parallel to P1. -/
theorem perpLine_parallel_cex :
    getPerpLinePoints ⟨"P2", "A", "P1"⟩
      [("A", ⟨"A", 0, 0, true, none⟩), ("B", ⟨"B", 1, 0, true, none⟩)]
      [.line ⟨"L", "A", "B", true⟩, .pline ⟨"P1", "A", "L"⟩,
       .pline ⟨"P2", "A", "P1"⟩] =
      some (⟨"", 0, -10000, false, none⟩, ⟨"", 0, 10000, false, none⟩) ∧
    ((0:ℝ) - 0) * ((0:ℝ) - 0) - ((10000:ℝ) - -10000) * ((1:ℝ) - 0) ≠ 0 := by
  have hs : Real.sqrt
      (((⟨"B", 1, 0, true, none⟩ : Point).x - (⟨"A", 0, 0, true, none⟩ : Point).x) *
       ((⟨"B", 1, 0, true, none⟩ : Point).x - (⟨"A", 0, 0, true, none⟩ : Point).x) +
       ((⟨"B", 1, 0, true, none⟩ : Point).y - (⟨"A", 0, 0, true, none⟩ : Point).y) *
       ((⟨"B", 1, 0, true, none⟩ : Point).y - (⟨"A", 0, 0, true, none⟩ : Point).y)) = 1 := by
    apply sqrt_eq_of_sq _ 1 (by norm_num)
    norm_num
  constructor
  · have h := gplNestedLineRef ⟨"P2", "A", "P1"⟩
      [("A", ⟨"A", 0, 0, true, none⟩), ("B", ⟨"B", 1, 0, true, none⟩)]
      [.line ⟨"L", "A", "B", true⟩, .pline ⟨"P1", "A", "L"⟩,
       .pline ⟨"P2", "A", "P1"⟩]
      ⟨"A", 0, 0, true, none⟩ ⟨"P1", "A", "L"⟩ ⟨"A", 0, 0, true, none⟩
      ⟨"L", "A", "B", true⟩ ⟨"A", 0, 0, true, none⟩ ⟨"B", 1, 0, true, none⟩
      rfl rfl rfl rfl rfl rfl (by rw [hs]; norm_num)
    rw [h, hs]
    norm_num
  · norm_num

/-- Witness for the amended C6, exercising four conjuncts at concrete
configurations over A=(0,0), B=(1,0): P1 ⟂ L resolves to the vertical
sample pair through A; P4 ⟂ Q (the bisector of AB) resolves to the
horizontal pair through A (the 90°-rotation of the bisector's vertical
direction); P5 ⟂ P4 ⟂ Q resolves parallel to the bisector Q, matching
the claim for a nested reference over a bisector; and P3 ⟂ P2 ⟂ P1 (a
chain of two nested perpendicular references) yields no direction and
empty intersections with the base line. -/
theorem perpLine_resolution_spec_witness :
    getPerpLinePoints ⟨"P1", "A", "L"⟩
      [("A", ⟨"A", 0, 0, true, none⟩), ("B", ⟨"B", 1, 0, true, none⟩)]
      [.line ⟨"L", "A", "B", true⟩, .pline ⟨"P1", "A", "L"⟩,
       .pline ⟨"P2", "A", "P1"⟩, .pline ⟨"P3", "A", "P2"⟩,
       .pbis ⟨"Q", "A", "B"⟩, .pline ⟨"P4", "A", "Q"⟩,
       .pline ⟨"P5", "A", "P4"⟩] =
      some
        (⟨"", (0:ℝ) - (-((0:ℝ) - 0) / Real.sqrt (((1:ℝ) - 0) * ((1:ℝ) - 0) +
            ((0:ℝ) - 0) * ((0:ℝ) - 0))) * 10000,
          (0:ℝ) - (((1:ℝ) - 0) / Real.sqrt (((1:ℝ) - 0) * ((1:ℝ) - 0) +
            ((0:ℝ) - 0) * ((0:ℝ) - 0))) * 10000, false, none⟩,
         ⟨"", (0:ℝ) + (-((0:ℝ) - 0) / Real.sqrt (((1:ℝ) - 0) * ((1:ℝ) - 0) +
            ((0:ℝ) - 0) * ((0:ℝ) - 0))) * 10000,
          (0:ℝ) + (((1:ℝ) - 0) / Real.sqrt (((1:ℝ) - 0) * ((1:ℝ) - 0) +
            ((0:ℝ) - 0) * ((0:ℝ) - 0))) * 10000, false, none⟩) ∧
    getPerpLinePoints ⟨"P4", "A", "Q"⟩
      [("A", ⟨"A", 0, 0, true, none⟩), ("B", ⟨"B", 1, 0, true, none⟩)]
      [.line ⟨"L", "A", "B", true⟩, .pline ⟨"P1", "A", "L"⟩,
       .pline ⟨"P2", "A", "P1"⟩, .pline ⟨"P3", "A", "P2"⟩,
       .pbis ⟨"Q", "A", "B"⟩, .pline ⟨"P4", "A", "Q"⟩,
       .pline ⟨"P5", "A", "P4"⟩] =
      some
        (⟨"", (0:ℝ) - (-((1:ℝ) - 0) / hypotR (-((0:ℝ) - 0)) ((1:ℝ) - 0)) * 10000,
          (0:ℝ) - (-((0:ℝ) - 0) / hypotR (-((0:ℝ) - 0)) ((1:ℝ) - 0)) * 10000,
          false, none⟩,
         ⟨"", (0:ℝ) + (-((1:ℝ) - 0) / hypotR (-((0:ℝ) - 0)) ((1:ℝ) - 0)) * 10000,
          (0:ℝ) + (-((0:ℝ) - 0) / hypotR (-((0:ℝ) - 0)) ((1:ℝ) - 0)) * 10000,
          false, none⟩) ∧
    getPerpLinePoints ⟨"P5", "A", "P4"⟩
      [("A", ⟨"A", 0, 0, true, none⟩), ("B", ⟨"B", 1, 0, true, none⟩)]
      [.line ⟨"L", "A", "B", true⟩, .pline ⟨"P1", "A", "L"⟩,
       .pline ⟨"P2", "A", "P1"⟩, .pline ⟨"P3", "A", "P2"⟩,
       .pbis ⟨"Q", "A", "B"⟩, .pline ⟨"P4", "A", "Q"⟩,
       .pline ⟨"P5", "A", "P4"⟩] =
      some
        (⟨"", (0:ℝ) - (-((0:ℝ) - 0) / Real.sqrt (((1:ℝ) - 0) * ((1:ℝ) - 0) +
            ((0:ℝ) - 0) * ((0:ℝ) - 0))) * 10000,
          (0:ℝ) - (((1:ℝ) - 0) / Real.sqrt (((1:ℝ) - 0) * ((1:ℝ) - 0) +
            ((0:ℝ) - 0) * ((0:ℝ) - 0))) * 10000, false, none⟩,
         ⟨"", (0:ℝ) + (-((0:ℝ) - 0) / Real.sqrt (((1:ℝ) - 0) * ((1:ℝ) - 0) +
            ((0:ℝ) - 0) * ((0:ℝ) - 0))) * 10000,
          (0:ℝ) + (((1:ℝ) - 0) / Real.sqrt (((1:ℝ) - 0) * ((1:ℝ) - 0) +
            ((0:ℝ) - 0) * ((0:ℝ) - 0))) * 10000, false, none⟩) ∧
    getPerpLinePoints ⟨"P3", "A", "P2"⟩
      [("A", ⟨"A", 0, 0, true, none⟩), ("B", ⟨"B", 1, 0, true, none⟩)]
      [.line ⟨"L", "A", "B", true⟩, .pline ⟨"P1", "A", "L"⟩,
       .pline ⟨"P2", "A", "P1"⟩, .pline ⟨"P3", "A", "P2"⟩,
       .pbis ⟨"Q", "A", "B"⟩, .pline ⟨"P4", "A", "Q"⟩,
       .pline ⟨"P5", "A", "P4"⟩] = none ∧
    findIntersections (.pline ⟨"P3", "A", "P2"⟩) (.line ⟨"L", "A", "B", true⟩)
      [("A", ⟨"A", 0, 0, true, none⟩), ("B", ⟨"B", 1, 0, true, none⟩)]
      [.line ⟨"L", "A", "B", true⟩, .pline ⟨"P1", "A", "L"⟩,
       .pline ⟨"P2", "A", "P1"⟩, .pline ⟨"P3", "A", "P2"⟩,
       .pbis ⟨"Q", "A", "B"⟩, .pline ⟨"P4", "A", "Q"⟩,
       .pline ⟨"P5", "A", "P4"⟩] = [] := by
  have hlen : ¬ Real.sqrt
      (((⟨"B", 1, 0, true, none⟩ : Point).x - (⟨"A", 0, 0, true, none⟩ : Point).x) *
       ((⟨"B", 1, 0, true, none⟩ : Point).x - (⟨"A", 0, 0, true, none⟩ : Point).x) +
       ((⟨"B", 1, 0, true, none⟩ : Point).y - (⟨"A", 0, 0, true, none⟩ : Point).y) *
       ((⟨"B", 1, 0, true, none⟩ : Point).y - (⟨"A", 0, 0, true, none⟩ : Point).y))
      < 1e-10 := by
    rw [sqrt_eq_of_sq _ 1 (by norm_num) (by norm_num)]
    norm_num
  have hspec1 := (perpLine_resolution_spec ⟨"P1", "A", "L"⟩
    [("A", ⟨"A", 0, 0, true, none⟩), ("B", ⟨"B", 1, 0, true, none⟩)]
    [.line ⟨"L", "A", "B", true⟩, .pline ⟨"P1", "A", "L"⟩,
     .pline ⟨"P2", "A", "P1"⟩, .pline ⟨"P3", "A", "P2"⟩,
     .pbis ⟨"Q", "A", "B"⟩, .pline ⟨"P4", "A", "Q"⟩,
     .pline ⟨"P5", "A", "P4"⟩]).1
    ⟨"A", 0, 0, true, none⟩ ⟨"L", "A", "B", true⟩
    ⟨"A", 0, 0, true, none⟩ ⟨"B", 1, 0, true, none⟩ rfl rfl rfl rfl hlen
  have hspec2 := (perpLine_resolution_spec ⟨"P4", "A", "Q"⟩
    [("A", ⟨"A", 0, 0, true, none⟩), ("B", ⟨"B", 1, 0, true, none⟩)]
    [.line ⟨"L", "A", "B", true⟩, .pline ⟨"P1", "A", "L"⟩,
     .pline ⟨"P2", "A", "P1"⟩, .pline ⟨"P3", "A", "P2"⟩,
     .pbis ⟨"Q", "A", "B"⟩, .pline ⟨"P4", "A", "Q"⟩,
     .pline ⟨"P5", "A", "P4"⟩]).2.1
    ⟨"A", 0, 0, true, none⟩ ⟨"Q", "A", "B"⟩
    ⟨"A", 0, 0, true, none⟩ ⟨"B", 1, 0, true, none⟩ rfl rfl rfl rfl hlen
  have hspec4 := (perpLine_resolution_spec ⟨"P5", "A", "P4"⟩
    [("A", ⟨"A", 0, 0, true, none⟩), ("B", ⟨"B", 1, 0, true, none⟩)]
    [.line ⟨"L", "A", "B", true⟩, .pline ⟨"P1", "A", "L"⟩,
     .pline ⟨"P2", "A", "P1"⟩, .pline ⟨"P3", "A", "P2"⟩,
     .pbis ⟨"Q", "A", "B"⟩, .pline ⟨"P4", "A", "Q"⟩,
     .pline ⟨"P5", "A", "P4"⟩]).2.2.2.1
    ⟨"A", 0, 0, true, none⟩ ⟨"P4", "A", "Q"⟩ ⟨"A", 0, 0, true, none⟩
    ⟨"Q", "A", "B"⟩ ⟨"A", 0, 0, true, none⟩ ⟨"B", 1, 0, true, none⟩
    rfl rfl rfl rfl rfl rfl hlen
  have hspec5 := (perpLine_resolution_spec ⟨"P3", "A", "P2"⟩
    [("A", ⟨"A", 0, 0, true, none⟩), ("B", ⟨"B", 1, 0, true, none⟩)]
    [.line ⟨"L", "A", "B", true⟩, .pline ⟨"P1", "A", "L"⟩,
     .pline ⟨"P2", "A", "P1"⟩, .pline ⟨"P3", "A", "P2"⟩,
     .pbis ⟨"Q", "A", "B"⟩, .pline ⟨"P4", "A", "Q"⟩,
     .pline ⟨"P5", "A", "P4"⟩]).2.2.2.2
    ⟨"P2", "A", "P1"⟩ ⟨"P1", "A", "L"⟩ rfl rfl
  exact ⟨hspec1, hspec2, hspec4, hspec5.1,
    (hspec5.2 (.line ⟨"L", "A", "B", true⟩)).1⟩

/-! ## Perpendicular-bisector tool (C8) -/

theorem closestScan_concat (x y th : ℝ) (es : List GeoElement) (e : GeoElement)
    (he : ∀ p, e ≠ .point p) :
    closestScan x y th (es ++ [e]) = closestScan x y th es := by
  rw [closestScan, closestScan, List.foldl_append, List.foldl_cons, List.foldl_nil]
  cases e with
  | point p => exact absurd rfl (he p)
  | line l => rfl
  | circle c => rfl
  | pbis b => rfl
  | pline pl => rfl

theorem closestPoint_concat (x y th : ℝ) (es : List GeoElement) (e : GeoElement)
    (he : ∀ p, e ≠ .point p) :
    closestPoint x y th (es ++ [e]) = closestPoint x y th es := by
  rw [closestPoint, closestPoint, closestScan_concat x y th es e he]

/-- Claim C8: running the PerpendicularBisector tool twice over the same
unordered pair of existing points yields exactly one bisector element.
From an Idle store whose click resolution selects A then B (distinct,
with no pre-existing bisector for the pair), the first two clicks commit
exactly one bisector; repeating the same two clicks leaves the element
collection unchanged (the staged payload is discarded on the duplicate
check), the pair count stays 1, and the tool returns to Idle. -/
theorem perpBisector_unique (s0 : StoreState) (A B : Point)
    (x1 y1 x2 y2 zoom : ℝ) (n1 n2 n3 n4 : String)
    (hidle : s0.isDrawing = false)
    (hA : closestPoint x1 y1 (12 / zoom) s0.elements = some A)
    (hB : closestPoint x2 y2 (12 / zoom) s0.elements = some B)
    (hAB : ¬ A.id = B.id)
    (hnodup : bisectorExists s0.elements A.id B.id = false) :
    (pbClick x2 y2 zoom n2 (pbClick x1 y1 zoom n1 s0)).elements =
      s0.elements ++ [.pbis ⟨n2, A.id, B.id⟩] ∧
    (pbClick x2 y2 zoom n4 (pbClick x1 y1 zoom n3
      (pbClick x2 y2 zoom n2 (pbClick x1 y1 zoom n1 s0)))).elements =
      s0.elements ++ [.pbis ⟨n2, A.id, B.id⟩] ∧
    countPBisPair ((pbClick x2 y2 zoom n4 (pbClick x1 y1 zoom n3
      (pbClick x2 y2 zoom n2 (pbClick x1 y1 zoom n1 s0)))).elements) A.id B.id = 1 ∧
    (pbClick x2 y2 zoom n4 (pbClick x1 y1 zoom n3
      (pbClick x2 y2 zoom n2 (pbClick x1 y1 zoom n1 s0)))).isDrawing = false := by
  have hels1 : pbClick x1 y1 zoom n1 s0 =
      s0.startConstruction (TempData.pb A.id A) := by
    rw [pbClick, handlePerpendicularBisectorClick, hA]
    dsimp only
    rw [hidle, if_pos rfl]
  have hels2 : pbClick x2 y2 zoom n2 (s0.startConstruction (TempData.pb A.id A)) =
      ((s0.startConstruction (TempData.pb A.id A)).addElement
        (.pbis ⟨n2, A.id, B.id⟩)).completeConstruction := by
    rw [pbClick]
    show handlePerpendicularBisectorClick x2 y2 s0.elements true
      (some (TempData.pb A.id A)) zoom
      (s0.startConstruction (TempData.pb A.id A)) n2 = _
    rw [handlePerpendicularBisectorClick, hB]
    dsimp only
    rw [if_neg (by simp), if_neg hAB, hnodup, if_neg (by simp)]
  have hA3 : closestPoint x1 y1 (12 / zoom)
      (s0.elements ++ [.pbis ⟨n2, A.id, B.id⟩]) = some A := by
    rw [closestPoint_concat x1 y1 _ s0.elements _ (fun p h => GeoElement.noConfusion h)]
    exact hA
  have hB3 : closestPoint x2 y2 (12 / zoom)
      (s0.elements ++ [.pbis ⟨n2, A.id, B.id⟩]) = some B := by
    rw [closestPoint_concat x2 y2 _ s0.elements _ (fun p h => GeoElement.noConfusion h)]
    exact hB
  have hdup : bisectorExists (s0.elements ++ [.pbis ⟨n2, A.id, B.id⟩])
      A.id B.id = true := by
    rw [bisectorExists, List.any_append]
    simp
  have hels3 : pbClick x1 y1 zoom n3
      (((s0.startConstruction (TempData.pb A.id A)).addElement
        (.pbis ⟨n2, A.id, B.id⟩)).completeConstruction) =
      ((((s0.startConstruction (TempData.pb A.id A)).addElement
        (.pbis ⟨n2, A.id, B.id⟩)).completeConstruction).startConstruction
        (TempData.pb A.id A)) := by
    rw [pbClick]
    show handlePerpendicularBisectorClick x1 y1
      (s0.elements ++ [.pbis ⟨n2, A.id, B.id⟩]) false none zoom _ n3 = _
    rw [handlePerpendicularBisectorClick, hA3]
    dsimp only
    rw [if_pos rfl]
  have hels4 : pbClick x2 y2 zoom n4
      (((((s0.startConstruction (TempData.pb A.id A)).addElement
        (.pbis ⟨n2, A.id, B.id⟩)).completeConstruction).startConstruction
        (TempData.pb A.id A))) =
      (((((s0.startConstruction (TempData.pb A.id A)).addElement
        (.pbis ⟨n2, A.id, B.id⟩)).completeConstruction).startConstruction
        (TempData.pb A.id A))).completeConstruction := by
    rw [pbClick]
    show handlePerpendicularBisectorClick x2 y2
      (s0.elements ++ [.pbis ⟨n2, A.id, B.id⟩]) true
      (some (TempData.pb A.id A)) zoom _ n4 = _
    rw [handlePerpendicularBisectorClick, hB3]
    dsimp only
    rw [if_neg (by simp), if_neg hAB, hdup, if_pos rfl]
  refine ⟨?_, ?_, ?_, ?_⟩
  · rw [hels1, hels2]
    rfl
  · rw [hels1, hels2, hels3, hels4]
    rfl
  · rw [hels1, hels2, hels3, hels4]
    show countPBisPair (s0.elements ++ [.pbis ⟨n2, A.id, B.id⟩]) A.id B.id = 1
    rw [countPBisPair, List.filter_append]
    have hnil : s0.elements.filter (fun el => match el with
        | .pbis bb => (bb.p1Id == A.id && bb.p2Id == B.id) ||
                      (bb.p1Id == B.id && bb.p2Id == A.id)
        | _ => false) = [] := by
      rw [List.filter_eq_nil_iff]
      intro a ha
      rw [bisectorExists] at hnodup
      have := (List.any_eq_false.mp hnodup) a ha
      cases a <;> simp_all
    rw [hnil]
    simp
  · rw [hels1, hels2, hels3, hels4]
    rfl

/-- Witness for C8 at a concrete two-point scene: clicking A=(0,0) then
B=(1,0) commits one bisector; repeating both clicks leaves exactly that
one bisector for the unordered pair and returns the tool to Idle. -/
theorem perpBisector_unique_witness :
    (pbClick 1 0 1 "n2" (pbClick 0 0 1 "n1"
      ⟨[.point ⟨"A", 0, 0, true, none⟩, .point ⟨"B", 1, 0, true, none⟩],
       [[]], 0, false, false, false, none⟩)).elements =
      [.point ⟨"A", 0, 0, true, none⟩, .point ⟨"B", 1, 0, true, none⟩] ++
        [.pbis ⟨"n2", "A", "B"⟩] ∧
    (pbClick 1 0 1 "n4" (pbClick 0 0 1 "n3" (pbClick 1 0 1 "n2" (pbClick 0 0 1 "n1"
      ⟨[.point ⟨"A", 0, 0, true, none⟩, .point ⟨"B", 1, 0, true, none⟩],
       [[]], 0, false, false, false, none⟩)))).elements =
      [.point ⟨"A", 0, 0, true, none⟩, .point ⟨"B", 1, 0, true, none⟩] ++
        [.pbis ⟨"n2", "A", "B"⟩] ∧
    countPBisPair ((pbClick 1 0 1 "n4" (pbClick 0 0 1 "n3" (pbClick 1 0 1 "n2"
      (pbClick 0 0 1 "n1"
        ⟨[.point ⟨"A", 0, 0, true, none⟩, .point ⟨"B", 1, 0, true, none⟩],
         [[]], 0, false, false, false, none⟩)))).elements) "A" "B" = 1 ∧
    (pbClick 1 0 1 "n4" (pbClick 0 0 1 "n3" (pbClick 1 0 1 "n2" (pbClick 0 0 1 "n1"
      ⟨[.point ⟨"A", 0, 0, true, none⟩, .point ⟨"B", 1, 0, true, none⟩],
       [[]], 0, false, false, false, none⟩)))).isDrawing = false := by
  have hsA : Real.sqrt (((0:ℝ) - 0) * ((0:ℝ) - 0) + ((0:ℝ) - 0) * ((0:ℝ) - 0)) = 0 :=
    sqrt_eq_of_sq _ 0 le_rfl (by norm_num)
  have hsB : Real.sqrt (((1:ℝ) - 0) * ((1:ℝ) - 0) + ((0:ℝ) - 0) * ((0:ℝ) - 0)) = 1 :=
    sqrt_eq_of_sq _ 1 (by norm_num) (by norm_num)
  have hsA2 : Real.sqrt (((0:ℝ) - 1) * ((0:ℝ) - 1) + ((0:ℝ) - 0) * ((0:ℝ) - 0)) = 1 :=
    sqrt_eq_of_sq _ 1 (by norm_num) (by norm_num)
  have hA : closestPoint 0 0 (12 / 1)
      [.point ⟨"A", 0, 0, true, none⟩, .point ⟨"B", 1, 0, true, none⟩] =
      some ⟨"A", 0, 0, true, none⟩ := by
    rw [closestPoint, closestScan, List.foldl_cons, List.foldl_cons, List.foldl_nil]
    dsimp only
    rw [hsA, if_pos (by norm_num)]
    dsimp only
    rw [hsB, if_neg (by norm_num)]
    rfl
  have hB : closestPoint 1 0 (12 / 1)
      [.point ⟨"A", 0, 0, true, none⟩, .point ⟨"B", 1, 0, true, none⟩] =
      some ⟨"B", 1, 0, true, none⟩ := by
    rw [closestPoint, closestScan, List.foldl_cons, List.foldl_cons, List.foldl_nil]
    dsimp only
    rw [hsA2, if_pos (by norm_num)]
    dsimp only
    rw [show Real.sqrt (((1:ℝ) - 1) * ((1:ℝ) - 1) + ((0:ℝ) - 0) * ((0:ℝ) - 0)) = 0
      from sqrt_eq_of_sq _ 0 le_rfl (by norm_num)]
    rw [if_pos (by norm_num)]
    rfl
  exact perpBisector_unique
    ⟨[.point ⟨"A", 0, 0, true, none⟩, .point ⟨"B", 1, 0, true, none⟩],
     [[]], 0, false, false, false, none⟩
    ⟨"A", 0, 0, true, none⟩ ⟨"B", 1, 0, true, none⟩ 0 0 1 0 1 "n1" "n2" "n3" "n4"
    rfl hA hB (by decide) rfl

/-! ## Totality of the derivation engine (C9) -/

/-- Claim C9: the derivation engine is total.  In the real-number model
of the code every function returns a (finite-coordinate) list on every
input; this theorem captures the substance of "never NaN/Infinity, never
throws": (1) any pairing involving a raw point is empty; (2) each core
algorithm returns empty when a referenced point is missing; (3) the
degenerate guards — parallel lines, zero-length segments, line beyond
the circle, circles too far apart / one containing the other /
coincident centers — each return the empty list; and (4) past every
guard, each divisor is nonzero and each square-root argument is
nonnegative, so no partial operation is ever applied outside its
domain. -/
theorem engine_total_degenerate (pts : PMap) (es : List GeoElement) :
    (∀ p el, findIntersections (.point p) el pts es = [] ∧
             findIntersections el (.point p) pts es = []) ∧
    (∀ l1 l2 : Line,
      (List.lookup l1.p1Id pts = none ∨ List.lookup l1.p2Id pts = none ∨
       List.lookup l2.p1Id pts = none ∨ List.lookup l2.p2Id pts = none) →
      lineLineIntersection l1 l2 pts = []) ∧
    (∀ (line : Line) (circle : Circle),
      (List.lookup line.p1Id pts = none ∨ List.lookup line.p2Id pts = none ∨
       List.lookup circle.centerId pts = none ∨
       List.lookup circle.radiusPointId pts = none) →
      lineCircleIntersection line circle pts = []) ∧
    (∀ c1 c2 : Circle,
      (List.lookup c1.centerId pts = none ∨ List.lookup c1.radiusPointId pts = none ∨
       List.lookup c2.centerId pts = none ∨
       List.lookup c2.radiusPointId pts = none) →
      circleCircleIntersection c1 c2 pts = []) ∧
    (∀ (l1 l2 : Line) (p1 p2 p3 p4 : Point),
      List.lookup l1.p1Id pts = some p1 → List.lookup l1.p2Id pts = some p2 →
      List.lookup l2.p1Id pts = some p3 → List.lookup l2.p2Id pts = some p4 →
      (|llDenom p1 p2 p3 p4| < 1e-10 → lineLineIntersection l1 l2 pts = []) ∧
      (¬ |llDenom p1 p2 p3 p4| < 1e-10 → llDenom p1 p2 p3 p4 ≠ 0)) ∧
    (∀ (line : Line) (circle : Circle) (p1 p2 center radiusPoint : Point),
      List.lookup line.p1Id pts = some p1 → List.lookup line.p2Id pts = some p2 →
      List.lookup circle.centerId pts = some center →
      List.lookup circle.radiusPointId pts = some radiusPoint →
      (lcLen p1 p2 < 1e-10 → lineCircleIntersection line circle pts = []) ∧
      (¬ lcLen p1 p2 < 1e-10 →
        lcDistToLine p1 p2 center > distance center radiusPoint →
        lineCircleIntersection line circle pts = []) ∧
      (¬ lcLen p1 p2 < 1e-10 → lcLen p1 p2 ≠ 0) ∧
      (¬ lcDistToLine p1 p2 center > distance center radiusPoint →
        0 ≤ distance center radiusPoint * distance center radiusPoint -
            lcDistToLine p1 p2 center * lcDistToLine p1 p2 center)) ∧
    (∀ (c1 c2 : Circle) (center1 r1p center2 r2p : Point),
      List.lookup c1.centerId pts = some center1 →
      List.lookup c1.radiusPointId pts = some r1p →
      List.lookup c2.centerId pts = some center2 →
      List.lookup c2.radiusPointId pts = some r2p →
      ((distance center1 center2 > distance center1 r1p + distance center2 r2p ∨
        distance center1 center2 < |distance center1 r1p - distance center2 r2p| ∨
        distance center1 center2 < 1e-10) →
        circleCircleIntersection c1 c2 pts = []) ∧
      (¬ (distance center1 center2 > distance center1 r1p + distance center2 r2p ∨
          distance center1 center2 < |distance center1 r1p - distance center2 r2p| ∨
          distance center1 center2 < 1e-10) →
        distance center1 center2 ≠ 0 ∧
        0 ≤ distance center1 r1p * distance center1 r1p -
            ccA center1 r1p center2 r2p * ccA center1 r1p center2 r2p)) := by
  refine ⟨?_, ?_, ?_, ?_, ?_, ?_, ?_⟩
  · intro p el
    constructor <;> cases el <;> rfl
  · intro l1 l2 hmiss
    rw [lineLineIntersection]
    cases h1 : List.lookup l1.p1Id pts with
    | none => rfl
    | some p1 =>
      cases h2 : List.lookup l1.p2Id pts with
      | none => rfl
      | some p2 =>
        cases h3 : List.lookup l2.p1Id pts with
        | none => rfl
        | some p3 =>
          cases h4 : List.lookup l2.p2Id pts with
          | none => rfl
          | some p4 =>
            exfalso
            rcases hmiss with h | h | h | h <;> simp_all
  · intro line circle hmiss
    rw [lineCircleIntersection]
    cases h1 : List.lookup line.p1Id pts with
    | none => rfl
    | some p1 =>
      cases h2 : List.lookup line.p2Id pts with
      | none => rfl
      | some p2 =>
        cases h3 : List.lookup circle.centerId pts with
        | none => rfl
        | some center =>
          cases h4 : List.lookup circle.radiusPointId pts with
          | none => rfl
          | some radiusPoint =>
            exfalso
            rcases hmiss with h | h | h | h <;> simp_all
  · intro c1 c2 hmiss
    rw [circleCircleIntersection]
    cases h1 : List.lookup c1.centerId pts with
    | none => rfl
    | some center1 =>
      cases h2 : List.lookup c1.radiusPointId pts with
      | none => rfl
      | some r1p =>
        cases h3 : List.lookup c2.centerId pts with
        | none => rfl
        | some center2 =>
          cases h4 : List.lookup c2.radiusPointId pts with
          | none => rfl
          | some r2p =>
            exfalso
            rcases hmiss with h | h | h | h <;> simp_all
  · intro l1 l2 p1 p2 p3 p4 h1 h2 h3 h4
    constructor
    · intro h
      rw [lineLineIntersection, h1, h2, h3, h4]
      dsimp only
      rw [if_pos h]
    · intro h h0
      rw [h0] at h
      simp at h
      linarith
  · intro line circle p1 p2 center radiusPoint h1 h2 h3 h4
    refine ⟨?_, ?_, ?_, ?_⟩
    · intro h
      rw [lineCircleIntersection, h1, h2, h3, h4]
      dsimp only
      rw [if_pos h]
    · intro hl hd
      rw [lineCircleIntersection, h1, h2, h3, h4]
      dsimp only
      rw [if_neg hl, if_pos hd]
    · intro hl h0
      rw [h0] at hl
      exact hl (by norm_num)
    · intro hd
      have hrn : 0 ≤ distance center radiusPoint := distance_nonneg _ _
      have hdn : 0 ≤ lcDistToLine p1 p2 center := Real.sqrt_nonneg _
      have hdr : lcDistToLine p1 p2 center ≤ distance center radiusPoint :=
        le_of_not_lt hd
      nlinarith
  · intro c1 c2 center1 r1p center2 r2p h1 h2 h3 h4
    constructor
    · intro h
      rw [circleCircleIntersection, h1, h2, h3, h4]
      dsimp only
      rw [if_pos h]
    · intro hn
      push_neg at hn
      obtain ⟨hle, habs, heps⟩ := hn
      have hd0 : (0 : ℝ) < distance center1 center2 :=
        lt_of_lt_of_le (by norm_num) heps
      refine ⟨ne_of_gt hd0, ?_⟩
      have hr1n : 0 ≤ distance center1 r1p := distance_nonneg _ _
      have hr2n : 0 ≤ distance center2 r2p := distance_nonneg _ _
      have habs1 : distance center1 r1p - distance center2 r2p ≤
          distance center1 center2 := le_trans (le_abs_self _) habs
      have habs2 : distance center2 r2p - distance center1 r1p ≤
          distance center1 center2 := by
        have := abs_le.1 habs
        cases this
        linarith [neg_abs_le (distance center1 r1p - distance center2 r2p)]
      have hfac : distance center1 r1p * distance center1 r1p -
          ccA center1 r1p center2 r2p * ccA center1 r1p center2 r2p =
          ((distance center2 r2p - distance center1 r1p + distance center1 center2) *
           (distance center2 r2p + distance center1 r1p - distance center1 center2)) *
          ((distance center1 r1p + distance center1 center2 - distance center2 r2p) *
           (distance center1 r1p + distance center1 center2 + distance center2 r2p)) /
          (4 * (distance center1 center2 * distance center1 center2)) := by
        rw [ccA]
        field_simp
        ring
      rw [hfac]
      apply div_nonneg
      · apply mul_nonneg
        · apply mul_nonneg <;> linarith
        · apply mul_nonneg <;> linarith
      · positivity

/-- Witness for C9 at concrete degenerate inputs: a point–line pairing,
two parallel lines, and two circles with coincident centers all resolve
to the empty list. -/
theorem engine_total_degenerate_witness :
    findIntersections (.point ⟨"P", 7, 8, true, none⟩)
      (.line ⟨"L", "a", "b", true⟩) [] [] = [] ∧
    lineLineIntersection ⟨"l1", "a", "b", true⟩ ⟨"l2", "c", "d", true⟩
      [("a", ⟨"a", 0, 0, true, none⟩), ("b", ⟨"b", 1, 0, true, none⟩),
       ("c", ⟨"c", 0, 1, true, none⟩), ("d", ⟨"d", 1, 1, true, none⟩)] = [] ∧
    circleCircleIntersection ⟨"c1", "a", "b"⟩ ⟨"c2", "a", "d"⟩
      [("a", ⟨"a", 0, 0, true, none⟩), ("b", ⟨"b", 1, 0, true, none⟩),
       ("d", ⟨"d", 2, 0, true, none⟩)] = [] := by
  refine ⟨(engine_total_degenerate [] []).1 ⟨"P", 7, 8, true, none⟩
    (.line ⟨"L", "a", "b", true⟩) |>.1, ?_, ?_⟩
  · exact ((engine_total_degenerate
      [("a", ⟨"a", 0, 0, true, none⟩), ("b", ⟨"b", 1, 0, true, none⟩),
       ("c", ⟨"c", 0, 1, true, none⟩), ("d", ⟨"d", 1, 1, true, none⟩)] []).2.2.2.2.1
      ⟨"l1", "a", "b", true⟩ ⟨"l2", "c", "d", true⟩ _ _ _ _
      rfl rfl rfl rfl).1 (by norm_num [llDenom])
  · have hd0 : distance (⟨"a", 0, 0, true, none⟩ : Point)
        (⟨"a", 0, 0, true, none⟩ : Point) = 0 := by
      apply hypotR_eq_of_sq _ _ 0 le_rfl
      norm_num
    exact ((engine_total_degenerate
      [("a", ⟨"a", 0, 0, true, none⟩), ("b", ⟨"b", 1, 0, true, none⟩),
       ("d", ⟨"d", 2, 0, true, none⟩)] []).2.2.2.2.2.2
      ⟨"c1", "a", "b"⟩ ⟨"c2", "a", "d"⟩ _ _ _ _ rfl rfl rfl rfl).1
      (Or.inr (Or.inr (by rw [hd0]; norm_num)))

end GeoDraw
